import Mathlib

/-!
Verification of the FVG trading engine (`src/Backend/algoBot.py`, with the
console variant `src/algoBot.py` where noted) against its natural-language
specification.  The Python strategy is shallowly embedded: candle fields are
rationals (or a non-numeric marker), the per-tick method
`CombinedFVGTrendStrategy.on_trading_iteration` becomes a pure state-transition
function `tick`, and every externally visible effect (order submissions, CSV
trade-log rows, websocket broadcasts) becomes an element of an event list.
-/

namespace AlgoBot

/-- A value read from a candle field: either a number or a non-numeric payload
(on which Python arithmetic or `float(...)` coercion raises). -/
inductive Val
  | num (q : ℚ)
  | raw
deriving DecidableEq, Repr

/-- Coercion to a number, `float(x)` in the source: fails on non-numeric data. -/
def Val.toQ : Val → Option ℚ
  | Val.num q => some q
  | Val.raw => none

/-- One OHLC candle (fields `open`, `high`, `low`, `close` of the source rows). -/
structure Candle where
  op : Val
  hi : Val
  lo : Val
  cl : Val
deriving DecidableEq, Repr

/-- A fair value gap as stored in `self.bullish_fvgs` / `self.bearish_fvgs` of
`src/Backend/algoBot.py` (the `type` key is encoded by which list holds it). -/
structure Fvg where
  low : ℚ
  high : ℚ
  age : ℕ
  c1idx : ℤ
  c3idx : ℤ
deriving DecidableEq, Repr

/-- A gap of the console variant `src/algoBot.py` (no candle indices). -/
structure ConsoleFvg where
  low : ℚ
  high : ℚ
  age : ℕ
deriving DecidableEq, Repr

/-- The strategy's mutable instance state (`src/Backend/algoBot.py`,
`initialize`). -/
structure BotState where
  tradingEnabled : Bool
  entryPrice : Option ℚ
  maxEquity : Option ℚ
  bullishFvgs : List Fvg
  bearishFvgs : List Fvg
  candleCounter : ℤ
deriving DecidableEq, Repr

/-- Inbound websocket messages (`trade_confirmation`, `toggle_trading`, or any
other type, which the code consumes and drops). -/
inductive Msg
  | tradeConfirmation (confirmed : Option Bool)
  | toggleTrading (enabled : Option Bool)
  | otherMsg
deriving DecidableEq, Repr

/-- Order side. -/
inductive Side
  | buy
  | sell
deriving DecidableEq, Repr

/-- Externally visible effects of one tick: broadcasts on the websocket bus,
orders handed to the broker, and rows appended to the trade-history CSV. -/
inductive Event
  | candleUpdate (o h l c : ℚ) (idx : ℤ)
  | portfolioUpdate (v : ℚ)
  | positionUpdate
  | smaUpdate (v : ℚ)
  | fvgUpdate
  | entrySignal
  | exitSignal
  | signalTimeout
  | tradeExecuted
  | orderSubmitted (side : Side) (qty : ℚ)
  | sellAllOrder
  | logTrade (side : Side) (qty price total : ℚ) (pl : Option ℚ)
deriving DecidableEq, Repr

/-- Outcome of one tick: normal completion, or an uncaught Python exception
(`crash`); both carry the state as mutated so far and the emitted events. -/
inductive TickRes
  | ok (s : BotState) (evs : List Event)
  | crash (s : BotState) (evs : List Event)
deriving DecidableEq, Repr

/-- The state component of a tick outcome. -/
def TickRes.state : TickRes → BotState
  | TickRes.ok s _ => s
  | TickRes.crash s _ => s

/-- The emitted events of a tick outcome. -/
def TickRes.events : TickRes → List Event
  | TickRes.ok _ evs => evs
  | TickRes.crash _ evs => evs

/-- Whether the tick completed without an exception. -/
def TickRes.isOk : TickRes → Bool
  | TickRes.ok _ _ => true
  | TickRes.crash _ _ => false

/-- Per-tick inputs supplied by the collaborators: data feed, broker queries,
and the websocket transport.  `inboxes` lists, for the n-th confirmation
request issued during the tick, the messages that arrive within its
60-second window. -/
structure Env where
  wsOn : Bool
  controlMsg : Option Msg
  dfLen : ℕ
  candle1 : Candle
  candle3 : Candle
  closes : List ℚ
  hasPosition : Bool
  posQty : ℚ
  portfolioValue : ℚ
  cash : ℚ
  inboxes : List (List Msg)
deriving Repr

/-- Strategy parameters fixed at `initialize`. -/
structure Params where
  cashAtRisk : ℚ
  stopLossPct : ℚ
  maxDrawdownPct : ℚ
  trendWindow : ℕ
  maxFvgAge : ℕ
  requireEntryConfirmation : Bool
  requireExitConfirmation : Bool
deriving Repr

/-- Floor of a rational (via flooring integer division, denominator positive). -/
def ratFloor (x : ℚ) : ℤ := Int.fdiv x.num (x.den : ℤ)

/-- Python `round(x, 0)`: round half to even (banker's rounding). -/
def pyRound (x : ℚ) : ℤ :=
  let f := ratFloor x
  let r : ℚ := x - (f : ℚ)
  if r < 1 / 2 then f
  else if 1 / 2 < r then f + 1
  else if f % 2 = 0 then f else f + 1

/-- `position_sizing` (`src/Backend/algoBot.py` lines 201-204):
`max(round(cash * cash_at_risk / price, 0), 1)`. -/
def positionSizing (cash car price : ℚ) : ℚ :=
  max ((pyRound (cash * car / price) : ℤ) : ℚ) 1

/-- Tolerance comparison used by gap deduplication:
`abs(a - b) < 1e-9` (lines 347 and 364). -/
def tolEq (a b : ℚ) : Bool := if |a - b| < 1 / 1000000000 then true else false

/-- First `trade_confirmation` message in an inbox, with Python's
`msg['payload'].get('confirmed', False)` defaulting. -/
def firstConfirmation : List Msg → Option Bool
  | [] => none
  | Msg.tradeConfirmation c :: _ => some (c.getD false)
  | _ :: rest => firstConfirmation rest

/-- `get_web_confirmation` (`src/Backend/algoBot.py` lines 206-223) as a
function of the messages arriving within the 60-second window: with no
server it returns `True` immediately; otherwise it broadcasts the signal,
returns the first confirmation's value, and on timeout broadcasts exactly
one `signal_timeout` and returns `False`. -/
def getWebConfirmation (wsOn isEntry : Bool) (inbox : List Msg) : Bool × List Event :=
  if wsOn = false then (true, [])
  else
    let sig := if isEntry then Event.entrySignal else Event.exitSignal
    match firstConfirmation inbox with
    | some b => (b, [sig])
    | none => (false, [sig, Event.signalTimeout])

/-- `get_user_confirmation` (`src/algoBot.py` lines 39-63) as a function of the
response typed within the timeout (`none` = no response): timeout defaults to
`False`, otherwise the answer is yes iff it strips/lowers to y or yes. -/
def getUserConfirmation (response : Option String) : Bool :=
  match response with
  | none => false
  | some r => (r.trim.toLower = "y" || r.trim.toLower = "yes")

/-- The control-message drain at the top of the tick
(`src/Backend/algoBot.py` lines 226-229): one queued message is taken; a
`toggle_trading` message sets the enabled flag, anything else is dropped. -/
def drainControl (msg : Option Msg) (s : BotState) : BotState :=
  match msg with
  | some (Msg.toggleTrading en) => { s with tradingEnabled := en.getD s.tradingEnabled }
  | _ => s

/-- The drain only happens when a websocket server is attached. -/
def postDrain (E : Env) (s : BotState) : BotState :=
  if E.wsOn then drainControl E.controlMsg s else s

/-- Python truthiness of `self.entry_price` (`None` and `0.0` are falsy). -/
def epTruthy : Option ℚ → Bool
  | some e => if e = 0 then false else true
  | none => false

/-- `np.mean(closes[-trend_window:])` (line 319), defined when
`closes.length ≥ window`. -/
def smaOf (closes : List ℚ) (window : ℕ) : ℚ :=
  (closes.drop (closes.length - window)).sum / (window : ℚ)

/-- Bullish FVG detection and deduplication (lines 336-350): when
`candle_1.high < candle_3.low` and the gap width is positive, the gap
`[c1.high, c3.low]` with age 0 is appended unless a tolerance-equal gap is
already open. -/
def detectBullish (c1h c3l : ℚ) (cnt : ℤ) (l : List Fvg) : List Fvg :=
  if c1h < c3l then
    if c3l - c1h > 0 then
      let f : Fvg := { low := c1h, high := c3l, age := 0, c1idx := cnt - 2, c3idx := cnt }
      if l.any (fun ex => tolEq ex.low f.low && tolEq ex.high f.high) then l else l ++ [f]
    else l
  else l

/-- Bearish FVG detection and deduplication (lines 353-367). -/
def detectBearish (c1l c3h : ℚ) (cnt : ℤ) (l : List Fvg) : List Fvg :=
  if c1l > c3h then
    if c1l - c3h > 0 then
      let f : Fvg := { low := c3h, high := c1l, age := 0, c1idx := cnt - 2, c3idx := cnt }
      if l.any (fun ex => tolEq ex.low f.low && tolEq ex.high f.high) then l else l ++ [f]
    else l
  else l

/-- The detection block (lines 326-367): the four coercions run in one `try`,
so a failure on either field of `candle_1` skips detection entirely
(`candle_3`'s fields are numeric by the time this runs, see `tick`). -/
def detectPhase (c1 : Candle) (h3 l3 : ℚ) (cnt : ℤ) (bl br : List Fvg) :
    List Fvg × List Fvg :=
  match c1.hi.toQ, c1.lo.toQ with
  | some c1h, some c1l => (detectBullish c1h l3 cnt bl, detectBearish c1l h3 cnt br)
  | _, _ => (bl, br)

/-- `candle_fully_submerges_fvg` (lines 389-395) for a numeric candle:
`candle.high <= fvg.high and candle.low >= fvg.low`. -/
def submerges (h3 l3 : ℚ) (f : Fvg) : Bool :=
  if h3 ≤ f.high ∧ l3 ≥ f.low then true else false

/-- The invalidation sweep (lines 397-405): every fully submerged gap is
removed. -/
def invalidateGaps (h3 l3 : ℚ) (l : List Fvg) : List Fvg :=
  l.filter (fun f => !(submerges h3 l3 f))

/-- The aging sweep (lines 533-543): every gap's age is incremented and gaps
whose age exceeds `max_fvg_age` are removed. -/
def ageExpire (maxAge : ℕ) (l : List Fvg) : List Fvg :=
  (l.map (fun g => { g with age := g.age + 1 })).filter (fun g => if g.age ≤ maxAge then true else false)

/-- The long-entry scan (lines 408-443 and 482-488): gaps are tried in list
order; a gap is touched when `candle_3.low` lies inside it; on a touch the
order is sized and (when required) a web confirmation is requested; a denial
continues the scan, an approval submits the order and stops.  Returns the
consumed gap and quantity (if any), the next confirmation-inbox index, and the
emitted events. -/
def entryScanLong (wsOn reqConf : Bool) (inboxes : List (List Msg))
    (l3 lastPrice cash car : ℚ) :
    ℕ → List Fvg → Option (Fvg × ℚ) × ℕ × List Event
  | idx, [] => (none, idx, [])
  | idx, f :: rest =>
    if l3 ≥ f.low ∧ l3 ≤ f.high then
      let qty := positionSizing cash car lastPrice
      let c := if reqConf then getWebConfirmation wsOn true (inboxes.getD idx []) else (true, [])
      let idx2 := if reqConf ∧ wsOn then idx + 1 else idx
      if c.1 = true then
        (some (f, qty), idx2,
          c.2 ++ [Event.orderSubmitted Side.buy qty,
                  Event.logTrade Side.buy qty lastPrice (qty * lastPrice) none]
              ++ (if wsOn then [Event.tradeExecuted] else []))
      else
        let r := entryScanLong wsOn reqConf inboxes l3 lastPrice cash car idx2 rest
        (r.1, r.2.1, c.2 ++ r.2.2)
    else entryScanLong wsOn reqConf inboxes l3 lastPrice cash car idx rest

/-- The short-entry scan (lines 445-480 and 490-496): as `entryScanLong` but a
gap is touched when `candle_3.high` lies inside it and the order side is
sell. -/
def entryScanShort (wsOn reqConf : Bool) (inboxes : List (List Msg))
    (h3 lastPrice cash car : ℚ) :
    ℕ → List Fvg → Option (Fvg × ℚ) × ℕ × List Event
  | idx, [] => (none, idx, [])
  | idx, f :: rest =>
    if h3 ≥ f.low ∧ h3 ≤ f.high then
      let qty := positionSizing cash car lastPrice
      let c := if reqConf then getWebConfirmation wsOn true (inboxes.getD idx []) else (true, [])
      let idx2 := if reqConf ∧ wsOn then idx + 1 else idx
      if c.1 = true then
        (some (f, qty), idx2,
          c.2 ++ [Event.orderSubmitted Side.sell qty,
                  Event.logTrade Side.sell qty lastPrice (qty * lastPrice) none]
              ++ (if wsOn then [Event.tradeExecuted] else []))
      else
        let r := entryScanShort wsOn reqConf inboxes h3 lastPrice cash car idx2 rest
        (r.1, r.2.1, c.2 ++ r.2.2)
    else entryScanShort wsOn reqConf inboxes h3 lastPrice cash car idx rest

/-- The exit scan (lines 499-530): bearish gaps are tried in list order; a gap
is touched on interval overlap with the current candle; a denial continues the
scan (the gap is kept), an approval submits the closing order, logs it with
the P/L, and stops. -/
def exitScan (wsOn reqConf : Bool) (inboxes : List (List Msg))
    (h3 l3 lastPrice qty : ℚ) (ep : Option ℚ) :
    ℕ → List Fvg → Option Fvg × ℕ × List Event
  | idx, [] => (none, idx, [])
  | idx, f :: rest =>
    if h3 ≥ f.low ∧ l3 ≤ f.high then
      let pl : ℚ := match ep with
        | some e => if e = 0 then 0 else (lastPrice - e) * qty
        | none => 0
      let c := if reqConf then getWebConfirmation wsOn false (inboxes.getD idx []) else (true, [])
      let idx2 := if reqConf ∧ wsOn then idx + 1 else idx
      if c.1 = true then
        (some f, idx2,
          c.2 ++ [Event.orderSubmitted Side.sell qty,
                  Event.logTrade Side.sell qty lastPrice (qty * lastPrice) (some pl)]
              ++ (if wsOn then [Event.tradeExecuted] else []))
      else
        let r := exitScan wsOn reqConf inboxes h3 l3 lastPrice qty ep idx2 rest
        (r.1, r.2.1, c.2 ++ r.2.2)
    else exitScan wsOn reqConf inboxes h3 l3 lastPrice qty ep idx rest

/-- The console variant's long-entry loop (`src/algoBot.py` lines 199-237):
overlap touch test, and a DENIED confirmation REMOVES the candidate gap before
continuing.  `answers` gives the user's reply per confirmation request (a
timeout is `false`).  Returns the consumed gap and quantity, the list as left
by the loop, and the emitted events. -/
def consoleEntryScan (reqConf : Bool) (answers : List Bool)
    (c3low c3high lastPrice cash car : ℚ) :
    ℕ → List ConsoleFvg → Option (ConsoleFvg × ℚ) × List ConsoleFvg × List Event
  | _, [] => (none, [], [])
  | idx, f :: rest =>
    if c3low ≤ f.high ∧ c3high ≥ f.low then
      let qty := positionSizing cash car lastPrice
      let c := if reqConf then answers.getD idx false else true
      let idx2 := if reqConf then idx + 1 else idx
      if c = true then
        (some (f, qty), rest,
          [Event.orderSubmitted Side.buy qty,
           Event.logTrade Side.buy qty lastPrice (qty * lastPrice) none])
      else
        let r := consoleEntryScan reqConf answers c3low c3high lastPrice cash car idx2 rest
        (r.1, r.2.1, r.2.2)
    else
      let r := consoleEntryScan reqConf answers c3low c3high lastPrice cash car idx rest
      (r.1, f :: r.2.1, r.2.2)

/-- The gap-processing phase of a tick (`src/Backend/algoBot.py` lines
325-543): gap detection, the `fvg_update` broadcast, submersion invalidation,
the long/short entry scans, the exit scan, and aging.  `s3` is the state after
high-water-mark seeding, `me` the seeded mark, `up` the trend flag, `evs2` the
events already emitted this tick.  An entry or exit returns immediately and
aging is skipped; otherwise both gap lists are aged. -/
def gapPhase (P : Params) (E : Env) (s3 : BotState) (me h3 l3 c3 : ℚ) (up : Bool)
    (evs2 : List Event) : TickRes :=
  let dl := detectPhase E.candle1 h3 l3 s3.candleCounter s3.bullishFvgs s3.bearishFvgs
  let evs3 : List Event := evs2 ++ (if E.wsOn = true then [Event.fvgUpdate] else [])
  let bl2 := invalidateGaps h3 l3 dl.1
  let br2 := invalidateGaps h3 l3 dl.2
  let s4 : BotState := { s3 with bullishFvgs := bl2, bearishFvgs := br2 }
  if E.hasPosition = false ∧ up = true then
    match entryScanLong E.wsOn P.requireEntryConfirmation E.inboxes l3 c3 E.cash
        P.cashAtRisk 0 bl2 with
    | (some (f, _qty), _, sevs) =>
        TickRes.ok { s4 with bullishFvgs := bl2.erase f,
                             entryPrice := some c3,
                             maxEquity := some (max me E.portfolioValue) } (evs3 ++ sevs)
    | (none, _, sevs) =>
        TickRes.ok { s4 with bullishFvgs := ageExpire P.maxFvgAge bl2,
                             bearishFvgs := ageExpire P.maxFvgAge br2 } (evs3 ++ sevs)
  else if E.hasPosition = false ∧ up = false then
    match entryScanShort E.wsOn P.requireEntryConfirmation E.inboxes h3 c3 E.cash
        P.cashAtRisk 0 br2 with
    | (some (f, _qty), _, sevs) =>
        TickRes.ok { s4 with bearishFvgs := br2.erase f,
                             entryPrice := some c3,
                             maxEquity := some (max me E.portfolioValue) } (evs3 ++ sevs)
    | (none, _, sevs) =>
        TickRes.ok { s4 with bullishFvgs := ageExpire P.maxFvgAge bl2,
                             bearishFvgs := ageExpire P.maxFvgAge br2 } (evs3 ++ sevs)
  else
    match exitScan E.wsOn P.requireExitConfirmation E.inboxes h3 l3 c3 E.posQty
        s3.entryPrice 0 br2 with
    | (some f, _, sevs) =>
        TickRes.ok { s4 with bearishFvgs := br2.erase f, entryPrice := none } (evs3 ++ sevs)
    | (none, _, sevs) =>
        TickRes.ok { s4 with bullishFvgs := ageExpire P.maxFvgAge bl2,
                             bearishFvgs := ageExpire P.maxFvgAge br2 } (evs3 ++ sevs)

/-- The broadcast, high-water-mark, and risk phase of a tick (lines 247-323):
candle analysis already succeeded with numeric `o3 h3 l3 c3`.  Broadcasts the
candle, seeds the high-water mark (setting it to itself when already set, as
`if self.max_equity is None` does), broadcasts portfolio and position, then
checks emergency drawdown (force-close, disable trading), stop-loss
(force-close, log), the trend-window gate, and computes the SMA before
delegating to `gapPhase`. -/
def riskPhase (P : Params) (E : Env) (s2 : BotState) (o3 h3 l3 c3 : ℚ) : TickRes :=
  let evs0 : List Event :=
    if E.wsOn = true then [Event.candleUpdate o3 h3 l3 c3 s2.candleCounter] else []
  let me : ℚ := s2.maxEquity.getD E.portfolioValue
  let s3 : BotState := { s2 with maxEquity := some me }
  let evs1 : List Event := evs0 ++
    (if E.wsOn = true then [Event.portfolioUpdate E.portfolioValue, Event.positionUpdate] else [])
  if E.hasPosition = true ∧ E.portfolioValue < me * (1 - P.maxDrawdownPct) then
    TickRes.ok { s3 with entryPrice := none, tradingEnabled := false }
      (evs1 ++ [Event.sellAllOrder] ++ (if E.wsOn = true then [Event.tradeExecuted] else []))
  else if E.hasPosition = true ∧ epTruthy s3.entryPrice = true ∧
      c3 ≤ s3.entryPrice.getD 0 * (1 - P.stopLossPct) then
    TickRes.ok { s3 with entryPrice := none }
      (evs1 ++ [Event.orderSubmitted Side.sell E.posQty,
                Event.logTrade Side.sell E.posQty c3 (E.posQty * c3)
                  (some ((c3 - s3.entryPrice.getD 0) * E.posQty))]
            ++ (if E.wsOn = true then [Event.tradeExecuted] else []))
  else if E.closes.length < P.trendWindow then TickRes.ok s3 evs1
  else
    gapPhase P E s3 me h3 l3 c3 (if c3 > smaOf E.closes P.trendWindow then true else false)
      (evs1 ++ (if E.wsOn = true then [Event.smaUpdate (smaOf E.closes P.trendWindow)] else []))

/-- One trading iteration, `CombinedFVGTrendStrategy.on_trading_iteration`
(`src/Backend/algoBot.py` lines 225-543), in source order: control-message
drain; enabled gate; data-sufficiency gate; candle counter; candle analysis
(which raises on a non-numeric `candle_3` field, modelled as `crash`); then
`riskPhase` and `gapPhase`. -/
def tick (P : Params) (E : Env) (s0 : BotState) : TickRes :=
  let s1 := postDrain E s0
  if s1.tradingEnabled = false then TickRes.ok s1 [] else
  if E.dfLen < 3 then TickRes.ok s1 [] else
  let s2 : BotState := { s1 with candleCounter := s1.candleCounter + 1 }
  match E.candle3.op.toQ, E.candle3.hi.toQ, E.candle3.lo.toQ, E.candle3.cl.toQ with
  | some o3, some h3, some l3, some c3 => riskPhase P E s2 o3 h3 l3 c3
  | _, _, _, _ => TickRes.crash s2 []

/-- The bullish gap list after detection and invalidation on a tick from state
`s0` (used to phrase theorems about the later phases of a tick). -/
def midBull (E : Env) (s0 : BotState) (h3 l3 : ℚ) : List Fvg :=
  invalidateGaps h3 l3
    (detectPhase E.candle1 h3 l3 (s0.candleCounter + 1) s0.bullishFvgs s0.bearishFvgs).1

/-- The bearish gap list after detection and invalidation on a tick from state
`s0`. -/
def midBear (E : Env) (s0 : BotState) (h3 l3 : ℚ) : List Fvg :=
  invalidateGaps h3 l3
    (detectPhase E.candle1 h3 l3 (s0.candleCounter + 1) s0.bullishFvgs s0.bearishFvgs).2

/-- True on broker orders (buy/sell submissions, not the force-liquidation). -/
def isOrderEv : Event → Bool
  | Event.orderSubmitted _ _ => true
  | _ => false

/-- True on rows appended to the trade-history CSV. -/
def isLogEv : Event → Bool
  | Event.logTrade _ _ _ _ _ => true
  | _ => false

/-- True on confirmation requests (entry or exit signals broadcast to the
operator). -/
def isRequestEv : Event → Bool
  | Event.entrySignal => true
  | Event.exitSignal => true
  | _ => false

/-- Number of broker orders among the events. -/
def countOrders (evs : List Event) : ℕ := evs.countP (fun e => isOrderEv e)

/-- Number of CSV trade-log rows among the events. -/
def countLogs (evs : List Event) : ℕ := evs.countP (fun e => isLogEv e)

/-- Number of confirmation requests among the events. -/
def countRequests (evs : List Event) : ℕ := evs.countP (fun e => isRequestEv e)

/-- Number of timeout events among the events. -/
def countTimeouts (evs : List Event) : ℕ := evs.count Event.signalTimeout

/-- A candle with four numeric fields. -/
def cand (o h l c : ℚ) : Candle := ⟨Val.num o, Val.num h, Val.num l, Val.num c⟩

/-- Reference parameters: 50% cash at risk, 2% stop loss, 10% max drawdown,
trend window 1, max gap age 10, no entry confirmation, exit confirmation on. -/
def pBase : Params :=
  { cashAtRisk := 1 / 2, stopLossPct := 1 / 50, maxDrawdownPct := 1 / 10,
    trendWindow := 1, maxFvgAge := 10,
    requireEntryConfirmation := false, requireExitConfirmation := true }

/-- Reference parameters with entry confirmation required. -/
def pConf : Params := { pBase with requireEntryConfirmation := true }

/-- A benign candle window: `candle_1` creates no gap, `candle_3` is
`(100, 106, 104, 105)` and the single close 100 puts price 105 above the SMA
(uptrend). -/
def envQuiet : Env :=
  { wsOn := true, controlMsg := none, dfLen := 3,
    candle1 := cand 100 200 90 100, candle3 := cand 100 106 104 105,
    closes := [100], hasPosition := false, posQty := 0,
    portfolioValue := 800, cash := 0, inboxes := [] }

/-- Emergency tick input: a position is open, the portfolio is 800 against a
high-water mark of 1000 (breaching the 10% drawdown limit). -/
def envEmergency : Env := { envQuiet with hasPosition := true, posQty := 2 }

/-- State during a run: trading on, a long at 100, mark 1000, one bullish gap
open. -/
def stRun : BotState :=
  { tradingEnabled := true, entryPrice := some 100, maxEquity := some 1000,
    bullishFvgs := [⟨103, 209 / 2, 1, 0, 0⟩], bearishFvgs := [], candleCounter := 0 }

/-- The tick after the emergency: the operator sends `toggle_trading` with
`enabled = true`; a bullish gap `[103, 104.5]` forms (`c1.high = 103 < 104 =
c3.low` in this window) and is touched by `candle_3.low`. -/
def envToggle : Env :=
  { envQuiet with controlMsg := some (Msg.toggleTrading (some true)),
                  candle1 := cand 100 103 90 100 }

/-- Entry-tick input for the aging counterexample: no websocket, so
confirmations auto-approve. -/
def envEntry : Env := { envQuiet with wsOn := false, portfolioValue := 1000 }

/-- State with two bullish gaps: `[103, 104.5]` (touched by low 104) and
`[90, 95]` (not touched), ages 2 and 3. -/
def stTwoGapsAuto : BotState :=
  { tradingEnabled := true, entryPrice := none, maxEquity := some 1000,
    bullishFvgs := [⟨103, 209 / 2, 2, 0, 0⟩, ⟨90, 95, 3, 0, 0⟩],
    bearishFvgs := [], candleCounter := 0 }

/-- Hold-tick input for the high-water-mark counterexample: a position is
open, the portfolio (1200) exceeds the 1000 mark, and no risk limit fires. -/
def envHold : Env :=
  { envQuiet with wsOn := false, hasPosition := true, posQty := 2,
                  portfolioValue := 1200, cash := 0 }

/-- State with a long at 100, mark 1000, and no open gaps. -/
def stHold : BotState :=
  { tradingEnabled := true, entryPrice := some 100, maxEquity := some 1000,
    bullishFvgs := [], bearishFvgs := [], candleCounter := 0 }

/-- Input with two denied entry confirmations queued: each of the first two
confirmation requests of the tick receives `confirmed = false`. -/
def envTwoDenies : Env :=
  { envQuiet with portfolioValue := 1000,
                  inboxes := [[Msg.tradeConfirmation (some false)],
                              [Msg.tradeConfirmation (some false)]] }

/-- State with two bullish gaps both touched by `candle_3.low = 104`:
`[103, 104.5]` (age 1, created first) and `[102, 105]` (age 0). -/
def stTwoTouched : BotState :=
  { tradingEnabled := true, entryPrice := none, maxEquity := some 1000,
    bullishFvgs := [⟨103, 209 / 2, 1, 0, 0⟩, ⟨102, 105, 0, 0, 0⟩],
    bearishFvgs := [], candleCounter := 0 }

/-- Input with a single denied entry confirmation queued. -/
def envOneDeny : Env :=
  { envQuiet with portfolioValue := 1000,
                  inboxes := [[Msg.tradeConfirmation (some false)]] }

/-- State with one bullish gap `[103, 104.5]`, age 0, touched by low 104. -/
def stOneGap : BotState :=
  { tradingEnabled := true, entryPrice := none, maxEquity := some 1000,
    bullishFvgs := [⟨103, 209 / 2, 0, 0, 0⟩], bearishFvgs := [], candleCounter := 5 }

/-- Malformed-data input: `candle_3.high` is non-numeric, a position is open,
and a bearish gap is open, so the claimed graceful skip would still have to
invalidate, match, and age it. -/
def envMalformed : Env :=
  { envQuiet with candle3 := ⟨Val.num 100, Val.raw, Val.num 104, Val.num 105⟩,
                  hasPosition := true, posQty := 2, portfolioValue := 1000 }

/-- State for the malformed-data input: a long at 100, one bearish gap. -/
def stMalformed : BotState :=
  { tradingEnabled := true, entryPrice := some 100, maxEquity := some 1000,
    bullishFvgs := [], bearishFvgs := [⟨104, 110, 1, 0, 0⟩], candleCounter := 0 }

/-- Malformed-data input on `candle_1` only: detection is skipped but the
tick proceeds. -/
def envMalformedC1 : Env :=
  { envQuiet with candle1 := ⟨Val.num 100, Val.raw, Val.num 90, Val.num 100⟩,
                  portfolioValue := 1000 }

/-- Stop-loss tick input: a position is open and the close 105 is not above
`entry * (1 - 2%)` for an entry at 120. -/
def envStop : Env :=
  { envQuiet with wsOn := false, hasPosition := true, posQty := 2,
                  portfolioValue := 1000, cash := 0 }

/-- State with a long at 120 (stop level 117.6, above the close 105). -/
def stStop : BotState :=
  { tradingEnabled := true, entryPrice := some 120, maxEquity := some 1000,
    bullishFvgs := [], bearishFvgs := [], candleCounter := 0 }

/-- Confirmed-exit tick input: a position is open, one approval queued. -/
def envExit : Env :=
  { envQuiet with hasPosition := true, posQty := 2, portfolioValue := 1000,
                  inboxes := [[Msg.tradeConfirmation (some true)]] }

/-- State with a long at 100 and a bearish gap `[105, 110]` overlapping the
candle `[104, 106]` (touched but not fully submerged). -/
def stExit : BotState :=
  { tradingEnabled := true, entryPrice := some 100, maxEquity := some 1000,
    bullishFvgs := [], bearishFvgs := [⟨105, 110, 1, 0, 0⟩], candleCounter := 0 }

/-- Submersion witness input: the state holds a bullish gap `[103, 107]`
containing the candle range `[104, 106]`, which the code treats as full
submersion (`candle.high <= gap.high and candle.low >= gap.low`). -/
def stSubm : BotState :=
  { tradingEnabled := true, entryPrice := none, maxEquity := some 1000,
    bullishFvgs := [⟨103, 107, 1, 0, 0⟩], bearishFvgs := [], candleCounter := 0 }

/-- The state left by the emergency tick from `stRun` under `envEmergency`:
trading latched off, entry price cleared, the gap retained. -/
def stLatch : BotState :=
  { tradingEnabled := false, entryPrice := none, maxEquity := some 1000,
    bullishFvgs := [⟨103, 209 / 2, 1, 0, 0⟩], bearishFvgs := [], candleCounter := 1 }

/-- State with one bullish gap `[90, 95]` far from the candle (not touched,
not submerged), to observe aging on a tick that takes no action. -/
def stGapFar : BotState :=
  { tradingEnabled := true, entryPrice := none, maxEquity := some 1000,
    bullishFvgs := [⟨90, 95, 3, 0, 0⟩], bearishFvgs := [], candleCounter := 0 }

/-- The state as it stands when the tick reaches gap processing: control
message drained, candle counter bumped, high-water mark seeded. -/
def seedState (E : Env) (s0 : BotState) : BotState :=
  { tradingEnabled := (postDrain E s0).tradingEnabled,
    entryPrice := s0.entryPrice,
    maxEquity := some (s0.maxEquity.getD E.portfolioValue),
    bullishFvgs := s0.bullishFvgs,
    bearishFvgs := s0.bearishFvgs,
    candleCounter := s0.candleCounter + 1 }

/-- The broadcasts emitted before gap processing on a tick that reaches it. -/
def preEvents (P : Params) (E : Env) (s0 : BotState) (o3 h3 l3 c3 : ℚ) : List Event :=
  ((if E.wsOn = true then [Event.candleUpdate o3 h3 l3 c3 (s0.candleCounter + 1)] else []) ++
    (if E.wsOn = true then [Event.portfolioUpdate E.portfolioValue, Event.positionUpdate]
      else [])) ++
  (if E.wsOn = true then [Event.smaUpdate (smaOf E.closes P.trendWindow)] else [])

lemma iteTF_eq_true {P : Prop} [Decidable P] : ((if P then true else false) = true) ↔ P := by
  by_cases h : P <;> simp [h]

lemma iteTF_eq_false {P : Prop} [Decidable P] : ((if P then true else false) = false) ↔ ¬P := by
  by_cases h : P <;> simp [h]

lemma drainControl_entryPrice (m : Option Msg) (s : BotState) :
    (drainControl m s).entryPrice = s.entryPrice := by
  cases m with
  | none => rfl
  | some mm => cases mm <;> rfl

lemma drainControl_maxEquity (m : Option Msg) (s : BotState) :
    (drainControl m s).maxEquity = s.maxEquity := by
  cases m with
  | none => rfl
  | some mm => cases mm <;> rfl

lemma drainControl_bullishFvgs (m : Option Msg) (s : BotState) :
    (drainControl m s).bullishFvgs = s.bullishFvgs := by
  cases m with
  | none => rfl
  | some mm => cases mm <;> rfl

lemma drainControl_bearishFvgs (m : Option Msg) (s : BotState) :
    (drainControl m s).bearishFvgs = s.bearishFvgs := by
  cases m with
  | none => rfl
  | some mm => cases mm <;> rfl

lemma drainControl_candleCounter (m : Option Msg) (s : BotState) :
    (drainControl m s).candleCounter = s.candleCounter := by
  cases m with
  | none => rfl
  | some mm => cases mm <;> rfl

lemma postDrain_entryPrice (E : Env) (s : BotState) :
    (postDrain E s).entryPrice = s.entryPrice := by
  unfold postDrain; split <;> simp [drainControl_entryPrice]

lemma postDrain_maxEquity (E : Env) (s : BotState) :
    (postDrain E s).maxEquity = s.maxEquity := by
  unfold postDrain; split <;> simp [drainControl_maxEquity]

lemma postDrain_bullishFvgs (E : Env) (s : BotState) :
    (postDrain E s).bullishFvgs = s.bullishFvgs := by
  unfold postDrain; split <;> simp [drainControl_bullishFvgs]

lemma postDrain_bearishFvgs (E : Env) (s : BotState) :
    (postDrain E s).bearishFvgs = s.bearishFvgs := by
  unfold postDrain; split <;> simp [drainControl_bearishFvgs]

lemma postDrain_candleCounter (E : Env) (s : BotState) :
    (postDrain E s).candleCounter = s.candleCounter := by
  unfold postDrain; split <;> simp [drainControl_candleCounter]

lemma firstConfirmation_eq_none {l : List Msg} (h : ∀ c, Msg.tradeConfirmation c ∉ l) :
    firstConfirmation l = none := by
  induction l with
  | nil => rfl
  | cons m rest ih =>
      cases m with
      | tradeConfirmation c => exact absurd (List.mem_cons_self _ _) (h c)
      | toggleTrading e =>
          simpa [firstConfirmation] using ih (fun c hc => h c (List.mem_cons_of_mem _ hc))
      | otherMsg =>
          simpa [firstConfirmation] using ih (fun c hc => h c (List.mem_cons_of_mem _ hc))

lemma submerges_eq_true {h3 l3 : ℚ} {g : Fvg} :
    submerges h3 l3 g = true ↔ h3 ≤ g.high ∧ l3 ≥ g.low := by
  unfold submerges; exact iteTF_eq_true

lemma submerges_age (h3 l3 : ℚ) (g : Fvg) (a : ℕ) :
    submerges h3 l3 { g with age := a } = submerges h3 l3 g := rfl

lemma not_mem_invalidateGaps {h3 l3 : ℚ} {l : List Fvg} {g : Fvg}
    (hs : submerges h3 l3 g = true) : g ∉ invalidateGaps h3 l3 l := by
  intro hg
  have h2 := (List.mem_filter.mp hg).2
  rw [hs] at h2
  exact absurd h2 (by simp)

lemma mem_ageExpire {m : ℕ} {l : List Fvg} {g : Fvg} (hg : g ∈ ageExpire m l) :
    g.age ≤ m ∧ ∃ g0 ∈ l, g = { g0 with age := g0.age + 1 } := by
  unfold ageExpire at hg
  have h1 := List.mem_filter.mp hg
  obtain ⟨g0, hg0, hmap⟩ := List.mem_map.mp h1.1
  exact ⟨iteTF_eq_true.mp h1.2, g0, hg0, hmap.symm⟩

lemma not_mem_age_invalidate {h3 l3 : ℚ} {m : ℕ} {l : List Fvg} {g : Fvg}
    (hs : submerges h3 l3 g = true) : g ∉ ageExpire m (invalidateGaps h3 l3 l) := by
  intro hg
  obtain ⟨-, g0, hg0, rfl⟩ := mem_ageExpire hg
  rw [submerges_age] at hs
  exact not_mem_invalidateGaps hs hg0

lemma not_mem_erase_invalidate {h3 l3 : ℚ} {l : List Fvg} {g f : Fvg}
    (hs : submerges h3 l3 g = true) : g ∉ (invalidateGaps h3 l3 l).erase f := fun hg =>
  not_mem_invalidateGaps hs (List.mem_of_mem_erase hg)

lemma countOrders_append (a b : List Event) :
    countOrders (a ++ b) = countOrders a + countOrders b := List.countP_append _ _ _

lemma countLogs_append (a b : List Event) :
    countLogs (a ++ b) = countLogs a + countLogs b := List.countP_append _ _ _

lemma getWebConfirmation_orders (wsOn b : Bool) (inbox : List Msg) :
    countOrders (getWebConfirmation wsOn b inbox).2 = 0 := by
  cases wsOn with
  | false => simp [getWebConfirmation, countOrders]
  | true =>
      cases b <;> cases h : firstConfirmation inbox <;>
        simp [getWebConfirmation, h, countOrders, isOrderEv]

lemma getWebConfirmation_logs (wsOn b : Bool) (inbox : List Msg) :
    countLogs (getWebConfirmation wsOn b inbox).2 = 0 := by
  cases wsOn with
  | false => simp [getWebConfirmation, countLogs]
  | true =>
      cases b <;> cases h : firstConfirmation inbox <;>
        simp [getWebConfirmation, h, countLogs, isLogEv]

lemma confPair_orders (reqConf wsOn b : Bool) (inbox : List Msg) :
    countOrders (if reqConf then getWebConfirmation wsOn b inbox else (true, [])).2 = 0 := by
  cases reqConf with
  | false => simp [countOrders]
  | true => simpa using getWebConfirmation_orders wsOn b inbox

lemma confPair_logs (reqConf wsOn b : Bool) (inbox : List Msg) :
    countLogs (if reqConf then getWebConfirmation wsOn b inbox else (true, [])).2 = 0 := by
  cases reqConf with
  | false => simp [countLogs]
  | true => simpa using getWebConfirmation_logs wsOn b inbox

lemma entryScanLong_orders_le (wsOn reqConf : Bool) (inboxes : List (List Msg))
    (l3 lp cash car : ℚ) :
    ∀ (idx : ℕ) (l : List Fvg),
      countOrders (entryScanLong wsOn reqConf inboxes l3 lp cash car idx l).2.2 ≤ 1 := by
  intro idx l
  induction l generalizing idx with
  | nil => simp [entryScanLong, countOrders]
  | cons f rest ih =>
      by_cases ht : l3 ≥ f.low ∧ l3 ≤ f.high
      · by_cases hcf :
            (if reqConf then getWebConfirmation wsOn true (inboxes.getD idx []) else
              (true, [])).1 = true
        · simp only [entryScanLong, if_pos ht, if_pos hcf, countOrders_append,
            confPair_orders]
          cases wsOn <;> simp [countOrders, isOrderEv]
        · simp only [entryScanLong, if_pos ht, if_neg hcf, countOrders_append,
            confPair_orders]
          simpa using ih _
      · simp only [entryScanLong, if_neg ht]
        exact ih idx

lemma entryScanShort_orders_le (wsOn reqConf : Bool) (inboxes : List (List Msg))
    (h3 lp cash car : ℚ) :
    ∀ (idx : ℕ) (l : List Fvg),
      countOrders (entryScanShort wsOn reqConf inboxes h3 lp cash car idx l).2.2 ≤ 1 := by
  intro idx l
  induction l generalizing idx with
  | nil => simp [entryScanShort, countOrders]
  | cons f rest ih =>
      by_cases ht : h3 ≥ f.low ∧ h3 ≤ f.high
      · by_cases hcf :
            (if reqConf then getWebConfirmation wsOn true (inboxes.getD idx []) else
              (true, [])).1 = true
        · simp only [entryScanShort, if_pos ht, if_pos hcf, countOrders_append,
            confPair_orders]
          cases wsOn <;> simp [countOrders, isOrderEv]
        · simp only [entryScanShort, if_pos ht, if_neg hcf, countOrders_append,
            confPair_orders]
          simpa using ih _
      · simp only [entryScanShort, if_neg ht]
        exact ih idx

lemma exitScan_orders_le (wsOn reqConf : Bool) (inboxes : List (List Msg))
    (h3 l3 lp qty : ℚ) (ep : Option ℚ) :
    ∀ (idx : ℕ) (l : List Fvg),
      countOrders (exitScan wsOn reqConf inboxes h3 l3 lp qty ep idx l).2.2 ≤ 1 := by
  intro idx l
  induction l generalizing idx with
  | nil => simp [exitScan, countOrders]
  | cons f rest ih =>
      by_cases ht : h3 ≥ f.low ∧ l3 ≤ f.high
      · by_cases hcf :
            (if reqConf then getWebConfirmation wsOn false (inboxes.getD idx []) else
              (true, [])).1 = true
        · simp only [exitScan, if_pos ht, if_pos hcf, countOrders_append, confPair_orders]
          cases wsOn <;> simp [countOrders, isOrderEv]
        · simp only [exitScan, if_pos ht, if_neg hcf, countOrders_append, confPair_orders]
          simpa using ih _
      · simp only [exitScan, if_neg ht]
        exact ih idx

lemma exitScan_logs_eq (wsOn reqConf : Bool) (inboxes : List (List Msg))
    (h3 l3 lp qty : ℚ) (ep : Option ℚ) :
    ∀ (idx : ℕ) (l : List Fvg),
      countLogs (exitScan wsOn reqConf inboxes h3 l3 lp qty ep idx l).2.2 =
        if (exitScan wsOn reqConf inboxes h3 l3 lp qty ep idx l).1.isSome then 1 else 0 := by
  intro idx l
  induction l generalizing idx with
  | nil => simp [exitScan, countLogs]
  | cons f rest ih =>
      by_cases ht : h3 ≥ f.low ∧ l3 ≤ f.high
      · by_cases hcf :
            (if reqConf then getWebConfirmation wsOn false (inboxes.getD idx []) else
              (true, [])).1 = true
        · simp only [exitScan, if_pos ht, if_pos hcf, countLogs_append, confPair_logs]
          cases wsOn <;> simp [countLogs, isLogEv]
        · simp only [exitScan, if_pos ht, if_neg hcf, countLogs_append, confPair_logs]
          simpa using ih _
      · simp only [exitScan, if_neg ht]
        exact ih idx

lemma gapPhase_no_submerged (P : Params) (E : Env) (s3 : BotState) (me h3 l3 c3 : ℚ)
    (up : Bool) (evs2 : List Event) (g : Fvg) (hs : submerges h3 l3 g = true) :
    g ∉ (gapPhase P E s3 me h3 l3 c3 up evs2).state.bullishFvgs ∧
    g ∉ (gapPhase P E s3 me h3 l3 c3 up evs2).state.bearishFvgs := by
  simp only [gapPhase]
  by_cases hp1 : E.hasPosition = false ∧ up = true
  · rw [if_pos hp1]
    rcases h1 : entryScanLong E.wsOn P.requireEntryConfirmation E.inboxes l3 c3 E.cash
        P.cashAtRisk 0 (invalidateGaps h3 l3 (detectPhase E.candle1 h3 l3 s3.candleCounter
          s3.bullishFvgs s3.bearishFvgs).1) with ⟨r, i, sevs⟩
    rcases r with - | ⟨f, q⟩
    · exact ⟨not_mem_age_invalidate hs, not_mem_age_invalidate hs⟩
    · exact ⟨not_mem_erase_invalidate hs, not_mem_invalidateGaps hs⟩
  · rw [if_neg hp1]
    by_cases hp2 : E.hasPosition = false ∧ up = false
    · rw [if_pos hp2]
      rcases h1 : entryScanShort E.wsOn P.requireEntryConfirmation E.inboxes h3 c3 E.cash
          P.cashAtRisk 0 (invalidateGaps h3 l3 (detectPhase E.candle1 h3 l3 s3.candleCounter
            s3.bullishFvgs s3.bearishFvgs).2) with ⟨r, i, sevs⟩
      rcases r with - | ⟨f, q⟩
      · exact ⟨not_mem_age_invalidate hs, not_mem_age_invalidate hs⟩
      · exact ⟨not_mem_invalidateGaps hs, not_mem_erase_invalidate hs⟩
    · rw [if_neg hp2]
      rcases h1 : exitScan E.wsOn P.requireExitConfirmation E.inboxes h3 l3 c3 E.posQty
          s3.entryPrice 0 (invalidateGaps h3 l3 (detectPhase E.candle1 h3 l3 s3.candleCounter
            s3.bullishFvgs s3.bearishFvgs).2) with ⟨r, i, sevs⟩
      rcases r with - | f
      · exact ⟨not_mem_age_invalidate hs, not_mem_age_invalidate hs⟩
      · exact ⟨not_mem_invalidateGaps hs, not_mem_erase_invalidate hs⟩

lemma gapPhase_pos_exit_none (P : Params) (E : Env) (s3 : BotState) (me h3 l3 c3 : ℚ)
    (up : Bool) (evs2 : List Event) (i : ℕ) (sevs : List Event)
    (hpos : E.hasPosition = true)
    (hscan : exitScan E.wsOn P.requireExitConfirmation E.inboxes h3 l3 c3 E.posQty
        s3.entryPrice 0
        (invalidateGaps h3 l3
          (detectPhase E.candle1 h3 l3 s3.candleCounter s3.bullishFvgs s3.bearishFvgs).2) =
      (none, i, sevs)) :
    (gapPhase P E s3 me h3 l3 c3 up evs2).state.bullishFvgs =
      ageExpire P.maxFvgAge
        (invalidateGaps h3 l3
          (detectPhase E.candle1 h3 l3 s3.candleCounter s3.bullishFvgs s3.bearishFvgs).1) ∧
    (gapPhase P E s3 me h3 l3 c3 up evs2).state.bearishFvgs =
      ageExpire P.maxFvgAge
        (invalidateGaps h3 l3
          (detectPhase E.candle1 h3 l3 s3.candleCounter s3.bullishFvgs s3.bearishFvgs).2) := by
  simp only [gapPhase]
  rw [if_neg (by simp [hpos]), if_neg (by simp [hpos]), hscan]
  simp [TickRes.state]

lemma gapPhase_pos_maxEquity (P : Params) (E : Env) (s3 : BotState) (me h3 l3 c3 : ℚ)
    (up : Bool) (evs2 : List Event) (hpos : E.hasPosition = true) :
    (gapPhase P E s3 me h3 l3 c3 up evs2).state.maxEquity = s3.maxEquity := by
  simp only [gapPhase]
  rw [if_neg (by simp [hpos]), if_neg (by simp [hpos])]
  rcases h1 : exitScan E.wsOn P.requireExitConfirmation E.inboxes h3 l3 c3 E.posQty
      s3.entryPrice 0 (invalidateGaps h3 l3 (detectPhase E.candle1 h3 l3 s3.candleCounter
        s3.bullishFvgs s3.bearishFvgs).2) with ⟨r, i, sevs⟩
  rcases r with - | f <;> rfl

lemma gapPhase_long_none_frame (P : Params) (E : Env) (s3 : BotState) (me h3 l3 c3 : ℚ)
    (evs2 : List Event) (i : ℕ) (sevs : List Event)
    (hpos : E.hasPosition = false)
    (hscan : entryScanLong E.wsOn P.requireEntryConfirmation E.inboxes l3 c3 E.cash
        P.cashAtRisk 0
        (invalidateGaps h3 l3
          (detectPhase E.candle1 h3 l3 s3.candleCounter s3.bullishFvgs s3.bearishFvgs).1) =
      (none, i, sevs)) :
    (gapPhase P E s3 me h3 l3 c3 true evs2).state.entryPrice = s3.entryPrice ∧
    (gapPhase P E s3 me h3 l3 c3 true evs2).state.maxEquity = s3.maxEquity := by
  simp only [gapPhase]
  rw [if_pos (by simp [hpos]), hscan]
  exact ⟨rfl, rfl⟩

lemma riskPhase_emergency (P : Params) (E : Env) (s2 : BotState) (o3 h3 l3 c3 : ℚ)
    (hem : E.hasPosition = true ∧
      E.portfolioValue < s2.maxEquity.getD E.portfolioValue * (1 - P.maxDrawdownPct)) :
    riskPhase P E s2 o3 h3 l3 c3 =
      TickRes.ok
        { s2 with maxEquity := some (s2.maxEquity.getD E.portfolioValue),
                  entryPrice := none, tradingEnabled := false }
        (((if E.wsOn = true then [Event.candleUpdate o3 h3 l3 c3 s2.candleCounter] else []) ++
          (if E.wsOn = true then [Event.portfolioUpdate E.portfolioValue, Event.positionUpdate]
            else [])) ++ [Event.sellAllOrder] ++
          (if E.wsOn = true then [Event.tradeExecuted] else [])) := by
  simp only [riskPhase]
  rw [if_pos hem]

lemma riskPhase_stopLoss (P : Params) (E : Env) (s2 : BotState) (o3 h3 l3 c3 : ℚ)
    (hnem : ¬(E.hasPosition = true ∧
      E.portfolioValue < s2.maxEquity.getD E.portfolioValue * (1 - P.maxDrawdownPct)))
    (hsl : E.hasPosition = true ∧ epTruthy s2.entryPrice = true ∧
      c3 ≤ s2.entryPrice.getD 0 * (1 - P.stopLossPct)) :
    riskPhase P E s2 o3 h3 l3 c3 =
      TickRes.ok
        { s2 with maxEquity := some (s2.maxEquity.getD E.portfolioValue), entryPrice := none }
        (((if E.wsOn = true then [Event.candleUpdate o3 h3 l3 c3 s2.candleCounter] else []) ++
          (if E.wsOn = true then [Event.portfolioUpdate E.portfolioValue, Event.positionUpdate]
            else [])) ++
          [Event.orderSubmitted Side.sell E.posQty,
           Event.logTrade Side.sell E.posQty c3 (E.posQty * c3)
             (some ((c3 - s2.entryPrice.getD 0) * E.posQty))] ++
          (if E.wsOn = true then [Event.tradeExecuted] else [])) := by
  simp only [riskPhase]
  rw [if_neg hnem, if_pos hsl]

lemma riskPhase_short (P : Params) (E : Env) (s2 : BotState) (o3 h3 l3 c3 : ℚ)
    (hnem : ¬(E.hasPosition = true ∧
      E.portfolioValue < s2.maxEquity.getD E.portfolioValue * (1 - P.maxDrawdownPct)))
    (hnsl : ¬(E.hasPosition = true ∧ epTruthy s2.entryPrice = true ∧
      c3 ≤ s2.entryPrice.getD 0 * (1 - P.stopLossPct)))
    (hlen : E.closes.length < P.trendWindow) :
    riskPhase P E s2 o3 h3 l3 c3 =
      TickRes.ok { s2 with maxEquity := some (s2.maxEquity.getD E.portfolioValue) }
        ((if E.wsOn = true then [Event.candleUpdate o3 h3 l3 c3 s2.candleCounter] else []) ++
          (if E.wsOn = true then [Event.portfolioUpdate E.portfolioValue, Event.positionUpdate]
            else [])) := by
  simp only [riskPhase]
  rw [if_neg hnem, if_neg hnsl, if_pos hlen]

lemma riskPhase_gap (P : Params) (E : Env) (s2 : BotState) (o3 h3 l3 c3 : ℚ)
    (hnem : ¬(E.hasPosition = true ∧
      E.portfolioValue < s2.maxEquity.getD E.portfolioValue * (1 - P.maxDrawdownPct)))
    (hnsl : ¬(E.hasPosition = true ∧ epTruthy s2.entryPrice = true ∧
      c3 ≤ s2.entryPrice.getD 0 * (1 - P.stopLossPct)))
    (hlen : ¬ E.closes.length < P.trendWindow) :
    riskPhase P E s2 o3 h3 l3 c3 =
      gapPhase P E { s2 with maxEquity := some (s2.maxEquity.getD E.portfolioValue) }
        (s2.maxEquity.getD E.portfolioValue) h3 l3 c3
        (if c3 > smaOf E.closes P.trendWindow then true else false)
        (((if E.wsOn = true then [Event.candleUpdate o3 h3 l3 c3 s2.candleCounter] else []) ++
          (if E.wsOn = true then [Event.portfolioUpdate E.portfolioValue, Event.positionUpdate]
            else [])) ++
          (if E.wsOn = true then [Event.smaUpdate (smaOf E.closes P.trendWindow)] else [])) := by
  simp only [riskPhase]
  rw [if_neg hnem, if_neg hnsl, if_neg hlen]

lemma tick_disabled (P : Params) (E : Env) (s0 : BotState)
    (h : (postDrain E s0).tradingEnabled = false) :
    tick P E s0 = TickRes.ok (postDrain E s0) [] := by
  simp only [tick]
  rw [if_pos h]

lemma tick_run (P : Params) (E : Env) (s0 : BotState) (o3 h3 l3 c3 : ℚ)
    (h1 : (postDrain E s0).tradingEnabled = true) (h2 : ¬ E.dfLen < 3)
    (ho : E.candle3.op.toQ = some o3) (hh : E.candle3.hi.toQ = some h3)
    (hl : E.candle3.lo.toQ = some l3) (hc : E.candle3.cl.toQ = some c3) :
    tick P E s0 = riskPhase P E
      { postDrain E s0 with candleCounter := (postDrain E s0).candleCounter + 1 }
      o3 h3 l3 c3 := by
  simp only [tick]
  rw [if_neg (by simp [h1]), if_neg h2, ho, hh, hl, hc]

lemma tick_gap (P : Params) (E : Env) (s0 : BotState) (o3 h3 l3 c3 : ℚ)
    (h1 : (postDrain E s0).tradingEnabled = true) (h2 : ¬ E.dfLen < 3)
    (ho : E.candle3.op.toQ = some o3) (hh : E.candle3.hi.toQ = some h3)
    (hl : E.candle3.lo.toQ = some l3) (hc : E.candle3.cl.toQ = some c3)
    (hnem : ¬(E.hasPosition = true ∧
      E.portfolioValue < s0.maxEquity.getD E.portfolioValue * (1 - P.maxDrawdownPct)))
    (hnsl : ¬(E.hasPosition = true ∧ epTruthy s0.entryPrice = true ∧
      c3 ≤ s0.entryPrice.getD 0 * (1 - P.stopLossPct)))
    (hlen : ¬ E.closes.length < P.trendWindow) :
    tick P E s0 = gapPhase P E (seedState E s0) (s0.maxEquity.getD E.portfolioValue)
      h3 l3 c3 (if c3 > smaOf E.closes P.trendWindow then true else false)
      (preEvents P E s0 o3 h3 l3 c3) := by
  rw [tick_run P E s0 o3 h3 l3 c3 h1 h2 ho hh hl hc]
  have e1 : ({ postDrain E s0 with
      candleCounter := (postDrain E s0).candleCounter + 1 } : BotState).maxEquity =
      s0.maxEquity := by
    simp [postDrain_maxEquity]
  have e2 : ({ postDrain E s0 with
      candleCounter := (postDrain E s0).candleCounter + 1 } : BotState).entryPrice =
      s0.entryPrice := by
    simp [postDrain_entryPrice]
  rw [riskPhase_gap P E _ o3 h3 l3 c3 (by rw [e1]; exact hnem)
    (by rw [e2]; exact hnsl) hlen]
  simp [seedState, preEvents, postDrain_maxEquity, postDrain_entryPrice,
    postDrain_bullishFvgs, postDrain_bearishFvgs, postDrain_candleCounter]

lemma tick_nodata (P : Params) (E : Env) (s0 : BotState)
    (h1 : (postDrain E s0).tradingEnabled = true) (h2 : E.dfLen < 3) :
    tick P E s0 = TickRes.ok (postDrain E s0) [] := by
  simp only [tick]
  rw [if_neg (by simp [h1]), if_pos h2]

lemma gapPhase_orders_le (P : Params) (E : Env) (s3 : BotState) (me h3 l3 c3 : ℚ)
    (up : Bool) (evs2 : List Event) (h0 : countOrders evs2 = 0) :
    countOrders (gapPhase P E s3 me h3 l3 c3 up evs2).events ≤ 1 := by
  have hz0 : countOrders (if E.wsOn = true then [Event.fvgUpdate] else []) = 0 := by
    cases hw : E.wsOn <;> simp [countOrders, isOrderEv]
  simp only [gapPhase]
  by_cases hp1 : E.hasPosition = false ∧ up = true
  · rw [if_pos hp1]
    rcases h1 : entryScanLong E.wsOn P.requireEntryConfirmation E.inboxes l3 c3 E.cash
        P.cashAtRisk 0 (invalidateGaps h3 l3 (detectPhase E.candle1 h3 l3 s3.candleCounter
          s3.bullishFvgs s3.bearishFvgs).1) with ⟨r, i, sevs⟩
    have hb := entryScanLong_orders_le E.wsOn P.requireEntryConfirmation E.inboxes l3 c3
      E.cash P.cashAtRisk 0 (invalidateGaps h3 l3 (detectPhase E.candle1 h3 l3
        s3.candleCounter s3.bullishFvgs s3.bearishFvgs).1)
    rw [h1] at hb
    simp only [Prod.snd] at hb
    rcases r with - | ⟨f, q⟩ <;>
      (simp only [TickRes.events, countOrders_append, h0, hz0]; omega)
  · rw [if_neg hp1]
    by_cases hp2 : E.hasPosition = false ∧ up = false
    · rw [if_pos hp2]
      rcases h1 : entryScanShort E.wsOn P.requireEntryConfirmation E.inboxes h3 c3 E.cash
          P.cashAtRisk 0 (invalidateGaps h3 l3 (detectPhase E.candle1 h3 l3 s3.candleCounter
            s3.bullishFvgs s3.bearishFvgs).2) with ⟨r, i, sevs⟩
      have hb := entryScanShort_orders_le E.wsOn P.requireEntryConfirmation E.inboxes h3 c3
        E.cash P.cashAtRisk 0 (invalidateGaps h3 l3 (detectPhase E.candle1 h3 l3
          s3.candleCounter s3.bullishFvgs s3.bearishFvgs).2)
      rw [h1] at hb
      simp only [Prod.snd] at hb
      rcases r with - | ⟨f, q⟩ <;>
        (simp only [TickRes.events, countOrders_append, h0, hz0]; omega)
    · rw [if_neg hp2]
      rcases h1 : exitScan E.wsOn P.requireExitConfirmation E.inboxes h3 l3 c3 E.posQty
          s3.entryPrice 0 (invalidateGaps h3 l3 (detectPhase E.candle1 h3 l3 s3.candleCounter
            s3.bullishFvgs s3.bearishFvgs).2) with ⟨r, i, sevs⟩
      have hb := exitScan_orders_le E.wsOn P.requireExitConfirmation E.inboxes h3 l3 c3
        E.posQty s3.entryPrice 0 (invalidateGaps h3 l3 (detectPhase E.candle1 h3 l3
          s3.candleCounter s3.bullishFvgs s3.bearishFvgs).2)
      rw [h1] at hb
      simp only [Prod.snd] at hb
      rcases r with - | f <;>
        (simp only [TickRes.events, countOrders_append, h0, hz0]; omega)

lemma gapPhase_pos_events (P : Params) (E : Env) (s3 : BotState) (me h3 l3 c3 : ℚ)
    (up : Bool) (evs2 : List Event) (hpos : E.hasPosition = true) :
    (gapPhase P E s3 me h3 l3 c3 up evs2).events =
      (evs2 ++ (if E.wsOn = true then [Event.fvgUpdate] else [])) ++
        (exitScan E.wsOn P.requireExitConfirmation E.inboxes h3 l3 c3 E.posQty
          s3.entryPrice 0
          (invalidateGaps h3 l3 (detectPhase E.candle1 h3 l3 s3.candleCounter
            s3.bullishFvgs s3.bearishFvgs).2)).2.2 := by
  simp only [gapPhase]
  rw [if_neg (by simp [hpos]), if_neg (by simp [hpos])]
  rcases h1 : exitScan E.wsOn P.requireExitConfirmation E.inboxes h3 l3 c3 E.posQty
      s3.entryPrice 0 (invalidateGaps h3 l3 (detectPhase E.candle1 h3 l3 s3.candleCounter
        s3.bullishFvgs s3.bearishFvgs).2) with ⟨r, i, sevs⟩
  rcases r with - | f <;> rfl

lemma riskPhase_orders_le (P : Params) (E : Env) (s2 : BotState) (o3 h3 l3 c3 : ℚ) :
    countOrders (riskPhase P E s2 o3 h3 l3 c3).events ≤ 1 := by
  by_cases hem : E.hasPosition = true ∧
      E.portfolioValue < s2.maxEquity.getD E.portfolioValue * (1 - P.maxDrawdownPct)
  · rw [riskPhase_emergency P E s2 o3 h3 l3 c3 hem]
    cases hw : E.wsOn <;> simp [TickRes.events, countOrders, isOrderEv, hw]
  · by_cases hsl : E.hasPosition = true ∧ epTruthy s2.entryPrice = true ∧
        c3 ≤ s2.entryPrice.getD 0 * (1 - P.stopLossPct)
    · rw [riskPhase_stopLoss P E s2 o3 h3 l3 c3 hem hsl]
      cases hw : E.wsOn <;> simp [TickRes.events, countOrders, isOrderEv, hw]
    · by_cases hlen : E.closes.length < P.trendWindow
      · rw [riskPhase_short P E s2 o3 h3 l3 c3 hem hsl hlen]
        cases hw : E.wsOn <;> simp [TickRes.events, countOrders, isOrderEv, hw]
      · rw [riskPhase_gap P E s2 o3 h3 l3 c3 hem hsl hlen]
        apply gapPhase_orders_le
        cases hw : E.wsOn <;> simp [countOrders, isOrderEv, hw]

lemma riskPhase_maxEquity_pos (P : Params) (E : Env) (s2 : BotState) (o3 h3 l3 c3 : ℚ)
    (m : ℚ) (hpos : E.hasPosition = true) (hme : s2.maxEquity = some m) :
    (riskPhase P E s2 o3 h3 l3 c3).state.maxEquity = some m := by
  by_cases hem : E.hasPosition = true ∧
      E.portfolioValue < s2.maxEquity.getD E.portfolioValue * (1 - P.maxDrawdownPct)
  · rw [riskPhase_emergency P E s2 o3 h3 l3 c3 hem]
    simp [TickRes.state, hme]
  · by_cases hsl : E.hasPosition = true ∧ epTruthy s2.entryPrice = true ∧
        c3 ≤ s2.entryPrice.getD 0 * (1 - P.stopLossPct)
    · rw [riskPhase_stopLoss P E s2 o3 h3 l3 c3 hem hsl]
      simp [TickRes.state, hme]
    · by_cases hlen : E.closes.length < P.trendWindow
      · rw [riskPhase_short P E s2 o3 h3 l3 c3 hem hsl hlen]
        simp [TickRes.state, hme]
      · rw [riskPhase_gap P E s2 o3 h3 l3 c3 hem hsl hlen]
        rw [gapPhase_pos_maxEquity _ _ _ _ _ _ _ _ _ hpos]
        simp [hme]

/-- C2: a confirmation request (entry or exit signal) to which no
`trade_confirmation` message arrives within the timeout window returns `false`
(default deny) and publishes exactly one `signal_timeout` event; the console
confirmation used for the continue-trading request likewise returns `false`
when no response arrives within its timeout. -/
theorem C2_timeout_default_deny (isEntry : Bool) (inbox : List Msg)
    (hno : ∀ c, Msg.tradeConfirmation c ∉ inbox) :
    (getWebConfirmation true isEntry inbox).1 = false ∧
    countTimeouts (getWebConfirmation true isEntry inbox).2 = 1 ∧
    getUserConfirmation none = false := by
  have hfc := firstConfirmation_eq_none hno
  cases isEntry <;>
    simp [getWebConfirmation, hfc, countTimeouts, getUserConfirmation, List.count_cons]

/-- Witness for C2 at the concrete inbox `[otherMsg]` (no confirmation ever
arrives): denied, and exactly one timeout event. -/
theorem C2_timeout_default_deny_witness :
    (getWebConfirmation true true [Msg.otherMsg]).1 = false ∧
    countTimeouts (getWebConfirmation true true [Msg.otherMsg]).2 = 1 ∧
    getUserConfirmation none = false :=
  C2_timeout_default_deny true [Msg.otherMsg] (by decide)

/-- C3: for a candle triple with `candle_1.high < candle_3.low`, a bullish gap
`[c1.high, c3.low]` with age 0 is appended exactly once: it is appended when
no tolerance-equal gap is open, and a detection whose bounds are
tolerance-equal to an already-open gap's leaves the list unchanged. -/
theorem C3_bullish_gap_dedup (c1h c3l : ℚ) (cnt : ℤ) (l : List Fvg) (hgap : c1h < c3l) :
    ((l.any (fun ex => tolEq ex.low c1h && tolEq ex.high c3l) = false) →
      detectBullish c1h c3l cnt l =
        l ++ [{ low := c1h, high := c3l, age := 0, c1idx := cnt - 2, c3idx := cnt }]) ∧
    ((l.any (fun ex => tolEq ex.low c1h && tolEq ex.high c3l) = true) →
      detectBullish c1h c3l cnt l = l) := by
  constructor <;> intro h <;>
    simp [detectBullish, hgap, sub_pos.mpr hgap, h]

/-- Witness for C3 on the spec's own scenario (`c1.high = 105 < 107 = c3.low`):
the gap `[105, 107]` is appended to an empty set, and a second detection with
tolerance-equal bounds appends nothing. -/
theorem C3_bullish_gap_dedup_witness :
    detectBullish 105 107 2 [] =
      [{ low := 105, high := 107, age := 0, c1idx := 0, c3idx := 2 }] ∧
    detectBullish 105 107 4
        [{ low := 105, high := 107, age := 2, c1idx := 0, c3idx := 2 }] =
      [{ low := 105, high := 107, age := 2, c1idx := 0, c3idx := 2 }] := by
  constructor
  · exact (C3_bullish_gap_dedup 105 107 2 [] (by norm_num)).1 (by simp)
  · exact (C3_bullish_gap_dedup 105 107 4 _ (by norm_num)).2 (by norm_num [tolEq])

/-- C5: on a tick that reaches gap processing (trading enabled, enough bars,
numeric current candle, no emergency, no stop-loss, enough closes), every gap
fully submerged by the current candle (`candle.high <= gap.high` and
`candle.low >= gap.low`) is absent from both open gap sets after the tick. -/
theorem C5_submerged_gap_removed (P : Params) (E : Env) (s0 : BotState)
    (o3 h3 l3 c3 : ℚ) (g : Fvg)
    (h1 : (postDrain E s0).tradingEnabled = true)
    (h2 : ¬ E.dfLen < 3)
    (ho : E.candle3.op.toQ = some o3) (hh : E.candle3.hi.toQ = some h3)
    (hl : E.candle3.lo.toQ = some l3) (hc : E.candle3.cl.toQ = some c3)
    (hnem : ¬(E.hasPosition = true ∧
      E.portfolioValue < s0.maxEquity.getD E.portfolioValue * (1 - P.maxDrawdownPct)))
    (hnsl : ¬(E.hasPosition = true ∧ epTruthy s0.entryPrice = true ∧
      c3 ≤ s0.entryPrice.getD 0 * (1 - P.stopLossPct)))
    (hlen : ¬ E.closes.length < P.trendWindow)
    (hsub : submerges h3 l3 g = true) :
    g ∉ (tick P E s0).state.bullishFvgs ∧ g ∉ (tick P E s0).state.bearishFvgs := by
  rw [tick_run P E s0 o3 h3 l3 c3 h1 h2 ho hh hl hc]
  have e1 : ({ postDrain E s0 with
      candleCounter := (postDrain E s0).candleCounter + 1 } : BotState).maxEquity =
      s0.maxEquity := by
    simp [postDrain_maxEquity]
  have e2 : ({ postDrain E s0 with
      candleCounter := (postDrain E s0).candleCounter + 1 } : BotState).entryPrice =
      s0.entryPrice := by
    simp [postDrain_entryPrice]
  rw [riskPhase_gap P E _ o3 h3 l3 c3 (by rw [e1]; exact hnem)
    (by rw [e2]; exact hnsl) hlen]
  exact gapPhase_no_submerged P E _ _ h3 l3 c3 _ _ g hsub

/-- Witness for C5: the bullish gap `[103, 107]` contains the candle
`[104, 106]` and is gone after the tick. -/
theorem C5_submerged_gap_removed_witness :
    (⟨103, 107, 1, 0, 0⟩ : Fvg) ∉ (tick pBase envQuiet stSubm).state.bullishFvgs ∧
    (⟨103, 107, 1, 0, 0⟩ : Fvg) ∉ (tick pBase envQuiet stSubm).state.bearishFvgs :=
  C5_submerged_gap_removed pBase envQuiet stSubm 100 106 104 105 ⟨103, 107, 1, 0, 0⟩
    (by norm_num [postDrain, drainControl, envQuiet, stSubm])
    (by norm_num [envQuiet])
    (by simp [envQuiet, cand, Val.toQ])
    (by simp [envQuiet, cand, Val.toQ])
    (by simp [envQuiet, cand, Val.toQ])
    (by simp [envQuiet, cand, Val.toQ])
    (by norm_num [envQuiet, stSubm])
    (by norm_num [envQuiet, stSubm, epTruthy])
    (by norm_num [envQuiet, pBase])
    (by norm_num [submerges])

/-- C1 counterexample: the emergency tick from `stRun` under `envEmergency`
force-closes and clears the enabled flag, but the latch is not one-way: a
subsequent tick that drains a `toggle_trading (enabled := true)` message
re-enables trading and submits a buy order, contradicting the claim that no
subsequent tick of the run submits an order. -/
theorem C1_counterexample :
    tick pBase envEmergency stRun =
      TickRes.ok stLatch
        [Event.candleUpdate 100 106 104 105 1, Event.portfolioUpdate 800,
         Event.positionUpdate, Event.sellAllOrder, Event.tradeExecuted] ∧
    stLatch.tradingEnabled = false ∧
    countOrders (tick pBase envToggle stLatch).events = 1 := by
  refine ⟨?_, rfl, ?_⟩
  · norm_num [tick, riskPhase, gapPhase, postDrain, drainControl, detectPhase, detectBullish,
      detectBearish, invalidateGaps, submerges, ageExpire, entryScanLong, entryScanShort,
      exitScan, getWebConfirmation, firstConfirmation, positionSizing, pyRound, ratFloor,
      smaOf, epTruthy, tolEq, Val.toQ, pBase, envEmergency, envQuiet, stRun, stLatch, cand]
  · norm_num [tick, riskPhase, gapPhase, postDrain, drainControl, detectPhase, detectBullish,
      detectBearish, invalidateGaps, submerges, ageExpire, entryScanLong, entryScanShort,
      exitScan, getWebConfirmation, firstConfirmation, positionSizing, pyRound, ratFloor,
      smaOf, epTruthy, tolEq, Val.toQ, pBase, envToggle, envQuiet, stLatch, cand,
      TickRes.events, countOrders, isOrderEv, abs_sub_lt_iff]

/-- C1 amended: an emergency-drawdown breach with an open position force-closes
without any confirmation request and clears the trading-enabled flag, and on
every later tick in which the drained control message does not re-enable
trading the tick is a no-op (no order, no confirmation request, no event);
the latch is therefore only one-way in the absence of an external
`toggle_trading (enabled := true)` message. -/
theorem C1_emergency_latch :
    (∀ (P : Params) (E : Env) (s0 : BotState) (o3 h3 l3 c3 : ℚ),
      (postDrain E s0).tradingEnabled = true → ¬ E.dfLen < 3 →
      E.candle3.op.toQ = some o3 → E.candle3.hi.toQ = some h3 →
      E.candle3.lo.toQ = some l3 → E.candle3.cl.toQ = some c3 →
      E.hasPosition = true →
      E.portfolioValue < s0.maxEquity.getD E.portfolioValue * (1 - P.maxDrawdownPct) →
      (tick P E s0).state.tradingEnabled = false ∧
      (tick P E s0).state.entryPrice = none ∧
      Event.sellAllOrder ∈ (tick P E s0).events ∧
      countRequests (tick P E s0).events = 0 ∧
      countOrders (tick P E s0).events = 0) ∧
    (∀ (P : Params) (E : Env) (s0 : BotState),
      (postDrain E s0).tradingEnabled = false →
      tick P E s0 = TickRes.ok (postDrain E s0) []) := by
  constructor
  · intro P E s0 o3 h3 l3 c3 h1 h2 ho hh hl hc hpos hdd
    rw [tick_run P E s0 o3 h3 l3 c3 h1 h2 ho hh hl hc]
    have e1 : ({ postDrain E s0 with
        candleCounter := (postDrain E s0).candleCounter + 1 } : BotState).maxEquity =
        s0.maxEquity := by
      simp [postDrain_maxEquity]
    rw [riskPhase_emergency P E _ o3 h3 l3 c3 ⟨hpos, by rw [e1]; exact hdd⟩]
    refine ⟨by simp [TickRes.state], by simp [TickRes.state], ?_, ?_, ?_⟩
    · simp [TickRes.events]
    · cases hw : E.wsOn <;>
        simp [TickRes.events, countRequests, isRequestEv, hw]
    · cases hw : E.wsOn <;>
        simp [TickRes.events, countOrders, isOrderEv, hw]
  · intro P E s0 h
    exact tick_disabled P E s0 h

/-- Witness for the amended C1 at the concrete scenario: the emergency tick
halts with no order and no request, and the latched state ticks to a no-op
when no re-enabling message arrives. -/
theorem C1_emergency_latch_witness :
    ((tick pBase envEmergency stRun).state.tradingEnabled = false ∧
     (tick pBase envEmergency stRun).state.entryPrice = none ∧
     Event.sellAllOrder ∈ (tick pBase envEmergency stRun).events ∧
     countRequests (tick pBase envEmergency stRun).events = 0 ∧
     countOrders (tick pBase envEmergency stRun).events = 0) ∧
    tick pBase envQuiet stLatch = TickRes.ok (postDrain envQuiet stLatch) [] := by
  constructor
  · exact C1_emergency_latch.1 pBase envEmergency stRun 100 106 104 105
      (by norm_num [postDrain, drainControl, envEmergency, envQuiet, stRun])
      (by norm_num [envEmergency, envQuiet])
      (by simp [envEmergency, envQuiet, cand, Val.toQ])
      (by simp [envEmergency, envQuiet, cand, Val.toQ])
      (by simp [envEmergency, envQuiet, cand, Val.toQ])
      (by simp [envEmergency, envQuiet, cand, Val.toQ])
      (by norm_num [envEmergency, envQuiet])
      (by norm_num [envEmergency, envQuiet, stRun, pBase])
  · exact C1_emergency_latch.2 pBase envQuiet stLatch
      (by norm_num [postDrain, drainControl, envQuiet, stLatch])

/-- C4 counterexample: a tick on which an entry occurs (one order submitted)
leaves the surviving gap `[90, 95]` with its age 3 unchanged, contradicting
the claim that on every tick that reaches entry/exit matching — including
ticks with an entry — every surviving gap's age is incremented. -/
theorem C4_counterexample :
    countOrders (tick pBase envEntry stTwoGapsAuto).events = 1 ∧
    (tick pBase envEntry stTwoGapsAuto).state.bullishFvgs =
      [{ low := 90, high := 95, age := 3, c1idx := 0, c3idx := 0 }] := by
  constructor <;>
    norm_num [tick, riskPhase, gapPhase, postDrain, drainControl, detectPhase, detectBullish,
      detectBearish, invalidateGaps, submerges, ageExpire, entryScanLong, entryScanShort,
      exitScan, getWebConfirmation, firstConfirmation, positionSizing, pyRound, ratFloor,
      smaOf, epTruthy, tolEq, Val.toQ, pBase, envEntry, envQuiet, stTwoGapsAuto, cand,
      TickRes.state, TickRes.events, countOrders, isOrderEv]

/-- C4 amended: the aging sweep increments every surviving gap's age by
exactly 1 and drops every gap whose age exceeds the limit, and it runs on
ticks that reach entry/exit matching and take no entry or exit action (an
entry, exit, stop-loss, or emergency action returns before the sweep, leaving
surviving gaps' ages unchanged, as the counterexample shows). -/
theorem C4_aging_on_no_action_ticks :
    (∀ (m : ℕ) (l : List Fvg) (g : Fvg), g ∈ ageExpire m l →
      g.age ≤ m ∧ ∃ g0 ∈ l, g = { g0 with age := g0.age + 1 }) ∧
    (∀ (P : Params) (E : Env) (s0 : BotState) (o3 h3 l3 c3 : ℚ) (i : ℕ)
        (sevs : List Event),
      (postDrain E s0).tradingEnabled = true → ¬ E.dfLen < 3 →
      E.candle3.op.toQ = some o3 → E.candle3.hi.toQ = some h3 →
      E.candle3.lo.toQ = some l3 → E.candle3.cl.toQ = some c3 →
      ¬(E.hasPosition = true ∧
        E.portfolioValue < s0.maxEquity.getD E.portfolioValue * (1 - P.maxDrawdownPct)) →
      ¬(E.hasPosition = true ∧ epTruthy s0.entryPrice = true ∧
        c3 ≤ s0.entryPrice.getD 0 * (1 - P.stopLossPct)) →
      ¬ E.closes.length < P.trendWindow →
      E.hasPosition = true →
      exitScan E.wsOn P.requireExitConfirmation E.inboxes h3 l3 c3 E.posQty
        s0.entryPrice 0 (midBear E s0 h3 l3) = (none, i, sevs) →
      (tick P E s0).state.bullishFvgs = ageExpire P.maxFvgAge (midBull E s0 h3 l3) ∧
      (tick P E s0).state.bearishFvgs = ageExpire P.maxFvgAge (midBear E s0 h3 l3)) := by
  constructor
  · intro m l g hg
    exact mem_ageExpire hg
  · intro P E s0 o3 h3 l3 c3 i sevs h1 h2 ho hh hl hc hnem hnsl hlen hpos hscan
    rw [tick_gap P E s0 o3 h3 l3 c3 h1 h2 ho hh hl hc hnem hnsl hlen]
    have hres := gapPhase_pos_exit_none P E (seedState E s0)
      (s0.maxEquity.getD E.portfolioValue) h3 l3 c3
      (if c3 > smaOf E.closes P.trendWindow then true else false)
      (preEvents P E s0 o3 h3 l3 c3) i sevs hpos
      (by simpa [seedState, midBear] using hscan)
    constructor
    · rw [hres.1]
      simp [midBull, seedState]
    · rw [hres.2]
      simp [midBear, seedState]

/-- Witness for the amended C4: the aged gap `[90, 95]` (age 4) came from the
age-3 gap, and a no-action tick with a position open ends with both gap lists
equal to the aging sweep of the post-invalidation lists. -/
theorem C4_aging_on_no_action_ticks_witness :
    ((⟨90, 95, 4, 0, 0⟩ : Fvg).age ≤ 10 ∧
      ∃ g0 ∈ [(⟨90, 95, 3, 0, 0⟩ : Fvg)],
        (⟨90, 95, 4, 0, 0⟩ : Fvg) = { g0 with age := g0.age + 1 }) ∧
    ((tick pBase envHold stHold).state.bullishFvgs =
      ageExpire 10 (midBull envHold stHold 106 104) ∧
     (tick pBase envHold stHold).state.bearishFvgs =
      ageExpire 10 (midBear envHold stHold 106 104)) := by
  constructor
  · exact C4_aging_on_no_action_ticks.1 10 [⟨90, 95, 3, 0, 0⟩] ⟨90, 95, 4, 0, 0⟩
      (by norm_num [ageExpire])
  · have h := C4_aging_on_no_action_ticks.2 pBase envHold stHold 100 106 104 105 0 []
      (by norm_num [postDrain, drainControl, envHold, envQuiet, stHold])
      (by norm_num [envHold, envQuiet])
      (by simp [envHold, envQuiet, cand, Val.toQ])
      (by simp [envHold, envQuiet, cand, Val.toQ])
      (by simp [envHold, envQuiet, cand, Val.toQ])
      (by simp [envHold, envQuiet, cand, Val.toQ])
      (by norm_num [envHold, envQuiet, stHold, pBase])
      (by norm_num [envHold, envQuiet, stHold, pBase, epTruthy])
      (by norm_num [envHold, envQuiet, pBase])
      (by norm_num [envHold, envQuiet])
      (by norm_num [exitScan, midBear, detectPhase, detectBullish, detectBearish,
        invalidateGaps, submerges, tolEq, envHold, envQuiet, stHold, cand, Val.toQ])
    simpa [pBase] using h

/-- C6 counterexample: a tick with an open position, passing risk checks, and
a portfolio value (1200) above the high-water mark (1000) leaves the mark at
1000, contradicting the claim that the mark is updated to
`max(highWaterMark, portfolioValue)` on every such tick. -/
theorem C6_counterexample :
    (tick pBase envHold stHold).isOk = true ∧
    Event.sellAllOrder ∉ (tick pBase envHold stHold).events ∧
    countOrders (tick pBase envHold stHold).events = 0 ∧
    (tick pBase envHold stHold).state.maxEquity = some 1000 := by
  refine ⟨?_, ?_, ?_, ?_⟩ <;>
    norm_num [tick, riskPhase, gapPhase, postDrain, drainControl, detectPhase, detectBullish,
      detectBearish, invalidateGaps, submerges, ageExpire, entryScanLong, entryScanShort,
      exitScan, getWebConfirmation, firstConfirmation, positionSizing, pyRound, ratFloor,
      smaOf, epTruthy, tolEq, Val.toQ, pBase, envHold, envQuiet, stHold, cand,
      TickRes.state, TickRes.events, TickRes.isOk, countOrders, isOrderEv]

/-- C6 amended: while a position is open the high-water mark is never modified
by a tick — it is not ratcheted to `max(mark, portfolioValue)` when risk
evaluation passes, and it is not cleared when the position closes; the
`max` update happens only on the entry path, which requires no open
position. -/
theorem C6_hwm_frozen_while_position_open (P : Params) (E : Env) (s0 : BotState) (m : ℚ)
    (hpos : E.hasPosition = true) (hme : s0.maxEquity = some m) :
    (tick P E s0).state.maxEquity = some m := by
  by_cases h1 : (postDrain E s0).tradingEnabled = false
  · rw [tick_disabled P E s0 h1]
    simp [TickRes.state, postDrain_maxEquity, hme]
  · have h1t : (postDrain E s0).tradingEnabled = true := by
      cases hb : (postDrain E s0).tradingEnabled
      · exact absurd hb h1
      · rfl
    by_cases h2 : E.dfLen < 3
    · rw [tick_nodata P E s0 h1t h2]
      simp [TickRes.state, postDrain_maxEquity, hme]
    · simp only [tick]
      rw [if_neg (by simp [h1t]), if_neg h2]
      rcases ho : E.candle3.op.toQ with - | o3
      · simp [TickRes.state, postDrain_maxEquity, hme]
      rcases hh : E.candle3.hi.toQ with - | h3
      · simp [TickRes.state, postDrain_maxEquity, hme]
      rcases hl : E.candle3.lo.toQ with - | l3
      · simp [TickRes.state, postDrain_maxEquity, hme]
      rcases hc : E.candle3.cl.toQ with - | c3
      · simp [TickRes.state, postDrain_maxEquity, hme]
      exact riskPhase_maxEquity_pos P E _ o3 h3 l3 c3 m hpos
        (by simp [postDrain_maxEquity, hme])

/-- Witness for the amended C6: the hold tick leaves the mark at 1000. -/
theorem C6_hwm_frozen_while_position_open_witness :
    (tick pBase envHold stHold).state.maxEquity = some 1000 :=
  C6_hwm_frozen_while_position_open pBase envHold stHold 1000
    (by norm_num [envHold, envQuiet]) (by norm_num [stHold])

/-- C7 counterexample: with two open bullish gaps both touched by the current
candle and both confirmations denied, the tick issues two entry confirmation
requests, contradicting the claim that at most one entry confirmation request
is issued per tick. -/
theorem C7_counterexample :
    countRequests (tick pConf envTwoDenies stTwoTouched).events = 2 ∧
    countOrders (tick pConf envTwoDenies stTwoTouched).events = 0 := by
  constructor <;>
    norm_num [tick, riskPhase, gapPhase, postDrain, drainControl, detectPhase, detectBullish,
      detectBearish, invalidateGaps, submerges, ageExpire, entryScanLong, entryScanShort,
      exitScan, getWebConfirmation, firstConfirmation, positionSizing, pyRound, ratFloor,
      smaOf, epTruthy, tolEq, Val.toQ, abs_sub_lt_iff, pConf, pBase, envTwoDenies, envQuiet,
      stTwoTouched, cand, TickRes.events, countRequests, isRequestEv, countOrders, isOrderEv]

/-- C7 amended: every tick submits at most one broker order, and the entry
scan consumes the first touched-and-approved gap in list order (gaps are
appended at detection time, so list order is creation order, oldest first);
however a denied confirmation lets the scan continue, so several entry
confirmation requests can be issued in one tick (see the counterexample). -/
theorem C7_one_order_oldest_first :
    (∀ (P : Params) (E : Env) (s0 : BotState), countOrders (tick P E s0).events ≤ 1) ∧
    (∀ (wsOn reqConf : Bool) (inboxes : List (List Msg)) (l3 lp cash car : ℚ)
        (idx : ℕ) (l1 l2 : List Fvg) (f : Fvg),
      (∀ g ∈ l1, ¬(l3 ≥ g.low ∧ l3 ≤ g.high)) →
      (l3 ≥ f.low ∧ l3 ≤ f.high) →
      (if reqConf then getWebConfirmation wsOn true (inboxes.getD idx []) else
        (true, [])).1 = true →
      (entryScanLong wsOn reqConf inboxes l3 lp cash car idx (l1 ++ f :: l2)).1 =
        some (f, positionSizing cash car lp)) := by
  constructor
  · intro P E s0
    by_cases h1 : (postDrain E s0).tradingEnabled = false
    · rw [tick_disabled P E s0 h1]
      simp [TickRes.events, countOrders]
    · have h1t : (postDrain E s0).tradingEnabled = true := by
        cases hb : (postDrain E s0).tradingEnabled
        · exact absurd hb h1
        · rfl
      by_cases h2 : E.dfLen < 3
      · rw [tick_nodata P E s0 h1t h2]
        simp [TickRes.events, countOrders]
      · simp only [tick]
        rw [if_neg (by simp [h1t]), if_neg h2]
        rcases ho : E.candle3.op.toQ with - | o3
        · simp [TickRes.events, countOrders]
        rcases hh : E.candle3.hi.toQ with - | h3
        · simp [TickRes.events, countOrders]
        rcases hl : E.candle3.lo.toQ with - | l3
        · simp [TickRes.events, countOrders]
        rcases hc : E.candle3.cl.toQ with - | c3
        · simp [TickRes.events, countOrders]
        exact riskPhase_orders_le P E _ o3 h3 l3 c3
  · intro wsOn reqConf inboxes l3 lp cash car idx l1 l2 f hunt ht hconf
    induction l1 with
    | nil =>
        simp only [List.nil_append, entryScanLong, if_pos ht, if_pos hconf]
    | cons g l1t ih =>
        have hg := hunt g (List.mem_cons_self _ _)
        simp only [List.cons_append, entryScanLong, if_neg hg]
        exact ih (fun x hx => hunt x (List.mem_cons_of_mem _ hx))

/-- Witness for the amended C7: the two-deny tick submits at most one order,
and with the first gap untouched by no predecessor the scan consumes the
first touched gap on approval. -/
theorem C7_one_order_oldest_first_witness :
    countOrders (tick pConf envTwoDenies stTwoTouched).events ≤ 1 ∧
    (entryScanLong true true [[Msg.tradeConfirmation (some true)]] 104 105 0 (1 / 2) 0
        ([] ++ (⟨103, 209 / 2, 1, 0, 0⟩ : Fvg) :: [⟨102, 105, 0, 0, 0⟩])).1 =
      some (⟨103, 209 / 2, 1, 0, 0⟩, positionSizing 0 (1 / 2) 105) := by
  constructor
  · exact C7_one_order_oldest_first.1 pConf envTwoDenies stTwoTouched
  · exact C7_one_order_oldest_first.2 true true [[Msg.tradeConfirmation (some true)]]
      104 105 0 (1 / 2) 0 [] [⟨102, 105, 0, 0, 0⟩] ⟨103, 209 / 2, 1, 0, 0⟩
      (by simp) (by norm_num) (by simp [getWebConfirmation, firstConfirmation])

/-- C8 counterexample: in the websocket engine a denied entry confirmation
leaves the candidate gap in the open bullish set (merely aged by the sweep),
contradicting the claim that the gap is removed for that attempt; no order is
submitted and the request was issued. -/
theorem C8_counterexample :
    countOrders (tick pConf envOneDeny stOneGap).events = 0 ∧
    Event.entrySignal ∈ (tick pConf envOneDeny stOneGap).events ∧
    (tick pConf envOneDeny stOneGap).state.bullishFvgs =
      [{ low := 103, high := 209 / 2, age := 1, c1idx := 0, c3idx := 0 }] := by
  refine ⟨?_, ?_, ?_⟩ <;>
    norm_num [tick, riskPhase, gapPhase, postDrain, drainControl, detectPhase, detectBullish,
      detectBearish, invalidateGaps, submerges, ageExpire, entryScanLong, entryScanShort,
      exitScan, getWebConfirmation, firstConfirmation, positionSizing, pyRound, ratFloor,
      smaOf, epTruthy, tolEq, Val.toQ, abs_sub_lt_iff, pConf, pBase, envOneDeny, envQuiet,
      stOneGap, cand, TickRes.state, TickRes.events, countOrders, isOrderEv]

/-- C8 amended: a denied entry confirmation submits no order and leaves the
engine's position, entry price, and high-water mark unchanged; the candidate
gap's fate is variant-dependent: the websocket engine
(`src/Backend/algoBot.py`) retains it (subject only to normal aging), while
the console engine (`src/algoBot.py`) removes it before continuing. -/
theorem C8_denied_entry_policy :
    (∀ (inboxes : List (List Msg)) (l3 lp cash car : ℚ) (idx : ℕ) (f : Fvg),
      (l3 ≥ f.low ∧ l3 ≤ f.high) →
      firstConfirmation (inboxes.getD idx []) = some false →
      entryScanLong true true inboxes l3 lp cash car idx [f] =
        (none, idx + 1, [Event.entrySignal])) ∧
    (∀ (answers : List Bool) (c3low c3high lp cash car : ℚ) (idx : ℕ) (f : ConsoleFvg),
      (c3low ≤ f.high ∧ c3high ≥ f.low) →
      answers.getD idx false = false →
      consoleEntryScan true answers c3low c3high lp cash car idx [f] =
        (none, [], [])) ∧
    (∀ (P : Params) (E : Env) (s0 : BotState) (o3 h3 l3 c3 m : ℚ) (i : ℕ)
        (sevs : List Event),
      (postDrain E s0).tradingEnabled = true → ¬ E.dfLen < 3 →
      E.candle3.op.toQ = some o3 → E.candle3.hi.toQ = some h3 →
      E.candle3.lo.toQ = some l3 → E.candle3.cl.toQ = some c3 →
      E.hasPosition = false →
      s0.maxEquity = some m →
      ¬ E.closes.length < P.trendWindow →
      c3 > smaOf E.closes P.trendWindow →
      entryScanLong E.wsOn P.requireEntryConfirmation E.inboxes l3 c3 E.cash
        P.cashAtRisk 0 (midBull E s0 h3 l3) = (none, i, sevs) →
      (tick P E s0).state.entryPrice = s0.entryPrice ∧
      (tick P E s0).state.maxEquity = some m) := by
  refine ⟨?_, ?_, ?_⟩
  · intro inboxes l3 lp cash car idx f ht hfc
    simp only [entryScanLong, if_pos ht, getWebConfirmation]
    rw [hfc]
    simp [entryScanLong]
  · intro answers c3low c3high lp cash car idx f ht hans
    simp only [consoleEntryScan, if_pos ht]
    rw [hans]
    simp [consoleEntryScan]
  · intro P E s0 o3 h3 l3 c3 m i sevs h1 h2 ho hh hl hc hposf hme hlen hup hscan
    rw [tick_gap P E s0 o3 h3 l3 c3 h1 h2 ho hh hl hc (by simp [hposf])
      (by simp [hposf]) hlen]
    rw [if_pos hup]
    have hres := gapPhase_long_none_frame P E (seedState E s0)
      (s0.maxEquity.getD E.portfolioValue) h3 l3 c3 (preEvents P E s0 o3 h3 l3 c3)
      i sevs hposf (by simpa [seedState, midBull] using hscan)
    constructor
    · rw [hres.1]
      simp [seedState]
    · rw [hres.2]
      simp [seedState, hme]

/-- Witness for the amended C8: concrete denied scans in both variants and
the unchanged tick state for the websocket engine. -/
theorem C8_denied_entry_policy_witness :
    entryScanLong true true [[Msg.tradeConfirmation (some false)]] 104 105 0 (1 / 2) 0
        [⟨103, 209 / 2, 0, 0, 0⟩] = (none, 1, [Event.entrySignal]) ∧
    consoleEntryScan true [false] 104 106 105 0 (1 / 2) 0 [⟨103, 209 / 2, 0⟩] =
      (none, [], []) ∧
    ((tick pConf envOneDeny stOneGap).state.entryPrice = stOneGap.entryPrice ∧
     (tick pConf envOneDeny stOneGap).state.maxEquity = some 1000) := by
  refine ⟨?_, ?_, ?_⟩
  · exact C8_denied_entry_policy.1 [[Msg.tradeConfirmation (some false)]] 104 105 0 (1 / 2)
      0 ⟨103, 209 / 2, 0, 0, 0⟩ (by norm_num) (by simp [firstConfirmation])
  · exact C8_denied_entry_policy.2.1 [false] 104 106 105 0 (1 / 2) 0 ⟨103, 209 / 2, 0⟩
      (by norm_num) (by simp)
  · exact C8_denied_entry_policy.2.2 pConf envOneDeny stOneGap 100 106 104 105 1000 1
      [Event.entrySignal]
      (by norm_num [postDrain, drainControl, envOneDeny, envQuiet, stOneGap])
      (by norm_num [envOneDeny, envQuiet])
      (by simp [envOneDeny, envQuiet, cand, Val.toQ])
      (by simp [envOneDeny, envQuiet, cand, Val.toQ])
      (by simp [envOneDeny, envQuiet, cand, Val.toQ])
      (by simp [envOneDeny, envQuiet, cand, Val.toQ])
      (by norm_num [envOneDeny, envQuiet])
      (by norm_num [stOneGap])
      (by norm_num [envOneDeny, envQuiet, pConf, pBase])
      (by norm_num [smaOf, envOneDeny, envQuiet, pConf, pBase])
      (by norm_num [entryScanLong, midBull, detectPhase, detectBullish, detectBearish,
        invalidateGaps, submerges, getWebConfirmation, firstConfirmation, tolEq,
        abs_sub_lt_iff, envOneDeny, envQuiet, stOneGap, cand, Val.toQ, pConf, pBase,
        positionSizing, pyRound, ratFloor])

/-- C9: a non-numeric field on `candle_3` makes the tick raise before any
broadcast, so nothing of the tick happens (no publishing, no invalidation, no
matching, no aging — the open bearish gap is untouched), while a non-numeric
field on `candle_1` only skips detection and the rest of the tick (including
aging) proceeds.  The claim (and the guards at lines 326-333, 391-394,
411-414 of `src/Backend/algoBot.py`) intend the graceful skip, but the bare
arithmetic in `calculate_candle_metrics` (line 247) and the bare coercions at
lines 255 and 502 raise first on malformed `candle_3` data. -/
theorem C9_malformed_candle3_crashes :
    (tick pBase envMalformed stMalformed).isOk = false ∧
    (tick pBase envMalformed stMalformed).events = [] ∧
    (tick pBase envMalformed stMalformed).state.bearishFvgs = stMalformed.bearishFvgs ∧
    (tick pBase envMalformedC1 stGapFar).isOk = true ∧
    (tick pBase envMalformedC1 stGapFar).state.bullishFvgs =
      [{ low := 90, high := 95, age := 4, c1idx := 0, c3idx := 0 }] := by
  refine ⟨?_, ?_, ?_, ?_, ?_⟩ <;>
    norm_num [tick, riskPhase, gapPhase, postDrain, drainControl, detectPhase, detectBullish,
      detectBearish, invalidateGaps, submerges, ageExpire, entryScanLong, entryScanShort,
      exitScan, getWebConfirmation, firstConfirmation, positionSizing, pyRound, ratFloor,
      smaOf, epTruthy, tolEq, Val.toQ, abs_sub_lt_iff, pBase, envMalformed, envMalformedC1,
      envQuiet, stMalformed, stGapFar, cand, TickRes.state, TickRes.events, TickRes.isOk]

/-- C10: the emergency max-drawdown closure appends no row to the trade log,
while a stop-loss closure and a confirmed exit each append exactly one row. -/
theorem C10_trade_log_rows :
    (∀ (P : Params) (E : Env) (s0 : BotState) (o3 h3 l3 c3 : ℚ),
      (postDrain E s0).tradingEnabled = true → ¬ E.dfLen < 3 →
      E.candle3.op.toQ = some o3 → E.candle3.hi.toQ = some h3 →
      E.candle3.lo.toQ = some l3 → E.candle3.cl.toQ = some c3 →
      E.hasPosition = true →
      E.portfolioValue < s0.maxEquity.getD E.portfolioValue * (1 - P.maxDrawdownPct) →
      countLogs (tick P E s0).events = 0) ∧
    (∀ (P : Params) (E : Env) (s0 : BotState) (o3 h3 l3 c3 : ℚ),
      (postDrain E s0).tradingEnabled = true → ¬ E.dfLen < 3 →
      E.candle3.op.toQ = some o3 → E.candle3.hi.toQ = some h3 →
      E.candle3.lo.toQ = some l3 → E.candle3.cl.toQ = some c3 →
      ¬(E.hasPosition = true ∧
        E.portfolioValue < s0.maxEquity.getD E.portfolioValue * (1 - P.maxDrawdownPct)) →
      (E.hasPosition = true ∧ epTruthy s0.entryPrice = true ∧
        c3 ≤ s0.entryPrice.getD 0 * (1 - P.stopLossPct)) →
      countLogs (tick P E s0).events = 1) ∧
    (∀ (P : Params) (E : Env) (s0 : BotState) (o3 h3 l3 c3 : ℚ) (f : Fvg) (i : ℕ)
        (sevs : List Event),
      (postDrain E s0).tradingEnabled = true → ¬ E.dfLen < 3 →
      E.candle3.op.toQ = some o3 → E.candle3.hi.toQ = some h3 →
      E.candle3.lo.toQ = some l3 → E.candle3.cl.toQ = some c3 →
      ¬(E.hasPosition = true ∧
        E.portfolioValue < s0.maxEquity.getD E.portfolioValue * (1 - P.maxDrawdownPct)) →
      ¬(E.hasPosition = true ∧ epTruthy s0.entryPrice = true ∧
        c3 ≤ s0.entryPrice.getD 0 * (1 - P.stopLossPct)) →
      ¬ E.closes.length < P.trendWindow →
      E.hasPosition = true →
      exitScan E.wsOn P.requireExitConfirmation E.inboxes h3 l3 c3 E.posQty
        s0.entryPrice 0 (midBear E s0 h3 l3) = (some f, i, sevs) →
      countLogs (tick P E s0).events = 1) := by
  refine ⟨?_, ?_, ?_⟩
  · intro P E s0 o3 h3 l3 c3 h1 h2 ho hh hl hc hpos hdd
    rw [tick_run P E s0 o3 h3 l3 c3 h1 h2 ho hh hl hc]
    have e1 : ({ postDrain E s0 with
        candleCounter := (postDrain E s0).candleCounter + 1 } : BotState).maxEquity =
        s0.maxEquity := by
      simp [postDrain_maxEquity]
    rw [riskPhase_emergency P E _ o3 h3 l3 c3 ⟨hpos, by rw [e1]; exact hdd⟩]
    cases hw : E.wsOn <;> simp [TickRes.events, countLogs, isLogEv, hw]
  · intro P E s0 o3 h3 l3 c3 h1 h2 ho hh hl hc hnem hsl
    rw [tick_run P E s0 o3 h3 l3 c3 h1 h2 ho hh hl hc]
    have e1 : ({ postDrain E s0 with
        candleCounter := (postDrain E s0).candleCounter + 1 } : BotState).maxEquity =
        s0.maxEquity := by
      simp [postDrain_maxEquity]
    have e2 : ({ postDrain E s0 with
        candleCounter := (postDrain E s0).candleCounter + 1 } : BotState).entryPrice =
        s0.entryPrice := by
      simp [postDrain_entryPrice]
    rw [riskPhase_stopLoss P E _ o3 h3 l3 c3 (by rw [e1]; exact hnem)
      (by rw [e2]; exact hsl)]
    cases hw : E.wsOn <;> simp [TickRes.events, countLogs, isLogEv, hw]
  · intro P E s0 o3 h3 l3 c3 f i sevs h1 h2 ho hh hl hc hnem hnsl hlen hpos hscan
    rw [tick_gap P E s0 o3 h3 l3 c3 h1 h2 ho hh hl hc hnem hnsl hlen]
    rw [gapPhase_pos_events P E (seedState E s0) (s0.maxEquity.getD E.portfolioValue)
      h3 l3 c3 _ (preEvents P E s0 o3 h3 l3 c3) hpos]
    have hscan2 : exitScan E.wsOn P.requireExitConfirmation E.inboxes h3 l3 c3 E.posQty
        (seedState E s0).entryPrice 0
        (invalidateGaps h3 l3 (detectPhase E.candle1 h3 l3 (seedState E s0).candleCounter
          (seedState E s0).bullishFvgs (seedState E s0).bearishFvgs).2) =
        (some f, i, sevs) := by
      simpa [seedState, midBear] using hscan
    have hcl := exitScan_logs_eq E.wsOn P.requireExitConfirmation E.inboxes h3 l3 c3
      E.posQty (seedState E s0).entryPrice 0
      (invalidateGaps h3 l3 (detectPhase E.candle1 h3 l3 (seedState E s0).candleCounter
        (seedState E s0).bullishFvgs (seedState E s0).bearishFvgs).2)
    rw [hscan2] at hcl
    simp at hcl
    rw [countLogs_append, hscan2]
    have hz : countLogs (preEvents P E s0 o3 h3 l3 c3 ++
        (if E.wsOn = true then [Event.fvgUpdate] else [])) = 0 := by
      cases hw : E.wsOn <;> simp [preEvents, countLogs_append, countLogs, isLogEv, hw]
    rw [hz]
    simpa using hcl

/-- Witness for C10: the emergency tick logs nothing, the stop-loss tick logs
one row, the confirmed-exit tick logs one row. -/
theorem C10_trade_log_rows_witness :
    countLogs (tick pBase envEmergency stRun).events = 0 ∧
    countLogs (tick pBase envStop stStop).events = 1 ∧
    countLogs (tick pBase envExit stExit).events = 1 := by
  refine ⟨?_, ?_, ?_⟩
  · exact C10_trade_log_rows.1 pBase envEmergency stRun 100 106 104 105
      (by norm_num [postDrain, drainControl, envEmergency, envQuiet, stRun])
      (by norm_num [envEmergency, envQuiet])
      (by simp [envEmergency, envQuiet, cand, Val.toQ])
      (by simp [envEmergency, envQuiet, cand, Val.toQ])
      (by simp [envEmergency, envQuiet, cand, Val.toQ])
      (by simp [envEmergency, envQuiet, cand, Val.toQ])
      (by norm_num [envEmergency, envQuiet])
      (by norm_num [envEmergency, envQuiet, stRun, pBase])
  · exact C10_trade_log_rows.2.1 pBase envStop stStop 100 106 104 105
      (by norm_num [postDrain, drainControl, envStop, envQuiet, stStop])
      (by norm_num [envStop, envQuiet])
      (by simp [envStop, envQuiet, cand, Val.toQ])
      (by simp [envStop, envQuiet, cand, Val.toQ])
      (by simp [envStop, envQuiet, cand, Val.toQ])
      (by simp [envStop, envQuiet, cand, Val.toQ])
      (by norm_num [envStop, envQuiet, stStop, pBase])
      (by norm_num [envStop, envQuiet, stStop, pBase, epTruthy])
  · exact C10_trade_log_rows.2.2 pBase envExit stExit 100 106 104 105
      ⟨105, 110, 1, 0, 0⟩ 1
      [Event.exitSignal, Event.orderSubmitted Side.sell 2,
       Event.logTrade Side.sell 2 105 210 (some 10), Event.tradeExecuted]
      (by norm_num [postDrain, drainControl, envExit, envQuiet, stExit])
      (by norm_num [envExit, envQuiet])
      (by simp [envExit, envQuiet, cand, Val.toQ])
      (by simp [envExit, envQuiet, cand, Val.toQ])
      (by simp [envExit, envQuiet, cand, Val.toQ])
      (by simp [envExit, envQuiet, cand, Val.toQ])
      (by norm_num [envExit, envQuiet, stExit, pBase])
      (by norm_num [envExit, envQuiet, stExit, pBase, epTruthy])
      (by norm_num [envExit, envQuiet, pBase])
      (by norm_num [envExit, envQuiet])
      (by norm_num [exitScan, midBear, detectPhase, detectBullish, detectBearish,
        invalidateGaps, submerges, getWebConfirmation, firstConfirmation, tolEq,
        abs_sub_lt_iff, envExit, envQuiet, stExit, cand, Val.toQ, pBase])

end AlgoBot
